import Mathlib

/-!
Verification of the EDA record-classification and enrichment pipeline
(modules under EDA/app/EDA: user_eda.py, regex_loader.py, eda_pipeline.py,
update_base.py).  Tables are embedded as lists of association-list rows,
pattern groups as a small regular-expression language with an executable
matcher, and each pipeline component as an executable Lean function
translated from the corresponding Python function.
-/

set_option autoImplicit false
set_option maxRecDepth 8192

namespace CrimeEDA

/-! ## Characters, whitespace and case folding -/

/-- Python whitespace characters recognised by strip and the regex class backslash-s. -/
def wsChars : List Char := [' ', '\t', '\n', '\x0b', '\x0c', '\r']

def isWs (c : Char) : Bool := wsChars.contains c

/-- Case folding for the alphabet appearing in the rulesets: ASCII plus the
accented Spanish capitals used in the embedded patterns. -/
def foldCase (c : Char) : Char :=
  if c = 'Á' then 'á' else if c = 'É' then 'é' else if c = 'Í' then 'í'
  else if c = 'Ó' then 'ó' else if c = 'Ú' then 'ú' else if c = 'Ñ' then 'ñ'
  else if c = 'Ü' then 'ü' else c.toLower

/-- Word characters for the regex word-boundary assertion (backslash-b):
alphanumerics, underscore, and the Spanish letters of the data's alphabet. -/
def isWordChar (c : Char) : Bool :=
  c.isAlphanum || c = '_' ||
    ['ñ', 'á', 'é', 'í', 'ó', 'ú', 'ü'].contains c

/-! ## Text normalisation (norm_series / _strip_accents) -/

/-- Lower-casing of one character as Python str.lower does on this alphabet. -/
def pyLower (c : Char) : Char := foldCase c

/-- NFD-decompose and drop combining marks, restricted to the Spanish
alphabet: accented vowels lose their accent and the tilde of the enye is a
combining mark, so it is dropped as well (as unicodedata does). -/
def stripAccentChar (c : Char) : Char :=
  if c = 'á' then 'a' else if c = 'é' then 'e' else if c = 'í' then 'i'
  else if c = 'ó' then 'o' else if c = 'ú' then 'u' else if c = 'ü' then 'u'
  else if c = 'ñ' then 'n'
  else if c = 'Á' then 'A' else if c = 'É' then 'E' else if c = 'Í' then 'I'
  else if c = 'Ó' then 'O' else if c = 'Ú' then 'U' else if c = 'Ü' then 'U'
  else if c = 'Ñ' then 'N'
  else c

/-- Python str.strip on a character list. -/
def pyStripList (l : List Char) : List Char :=
  ((l.dropWhile isWs).reverse.dropWhile isWs).reverse

def pyStrip (s : String) : String := String.mk (pyStripList s.data)

/-- Collapse every run of whitespace to a single blank (regex replace of
one-or-more whitespace by one space); the flag records whether the
previous character belonged to a whitespace run already replaced. -/
def collapseWsAux : Bool → List Char → List Char
  | _, [] => []
  | prevWs, c :: rest =>
      if isWs c then
        if prevWs then collapseWsAux true rest
        else ' ' :: collapseWsAux true rest
      else c :: collapseWsAux false rest

def collapseWs (l : List Char) : List Char := collapseWsAux false l

/-- norm_series on one string value: strip, lower-case, strip accents,
collapse internal whitespace. -/
def normStr (s : String) : String :=
  String.mk (collapseWs (((pyStripList s.data).map pyLower).map stripAccentChar))

/-! ## A small regular-expression language

The source compiles its pattern groups with re.compile(..., re.I); the
constructs those patterns use are literals, alternation, concatenation,
character classes, optional and repeated pieces, the dot, anchors and the
word-boundary assertion.  Matching is case-insensitive (re.I). -/

inductive RE where
  | eps
  | dot
  | lit (c : Char)
  | cls (cs : List Char)
  | alt (a b : RE)
  | cat (a b : RE)
  | star (a : RE)
  | rep1 (a : RE)
  | quest (a : RE)
  | bol
  | eol
  | wb
deriving DecidableEq

/-- Word-boundary test between the previous character (none at the start of
the text) and the rest of the text. -/
def atWordBoundary (prev : Option Char) (s : List Char) : Bool :=
  let a := match prev with | some c => isWordChar c | none => false
  let b := match s with | c :: _ => isWordChar c | [] => false
  a != b

/-- Fuel-bounded continuation-passing matcher.  The continuation receives
the character preceding the unconsumed suffix (for boundary assertions)
and the unconsumed suffix itself. -/
def reMatch : Nat → RE → Option Char → List Char →
    (Option Char → List Char → Bool) → Bool
  | 0, _, _, _, _ => false
  | fuel + 1, r, prev, s, k =>
    match r with
    | .eps => k prev s
    | .dot =>
        match s with
        | [] => false
        | c :: rest => if c = '\n' then false else k (some c) rest
    | .lit c =>
        match s with
        | [] => false
        | a :: rest => if foldCase a = foldCase c then k (some a) rest else false
    | .cls cs =>
        match s with
        | [] => false
        | a :: rest =>
            if cs.any (fun c => foldCase c = foldCase a) then k (some a) rest else false
    | .alt a b => reMatch fuel a prev s k || reMatch fuel b prev s k
    | .cat a b => reMatch fuel a prev s (fun p s2 => reMatch fuel b p s2 k)
    | .star a =>
        reMatch fuel a prev s (fun p s2 => reMatch fuel (.star a) p s2 k) || k prev s
    | .rep1 a => reMatch fuel (.cat a (.star a)) prev s k
    | .quest a => reMatch fuel a prev s k || k prev s
    | .bol => if prev = none then k prev s else false
    | .eol => if s = [] then k prev s else false
    | .wb => if atWordBoundary prev s then k prev s else false

/-- Structural size of a pattern, used only to pick a sufficient fuel. -/
def reSize : RE → Nat
  | .eps | .dot | .bol | .eol | .wb => 1
  | .lit _ => 1
  | .cls _ => 1
  | .alt a b => reSize a + reSize b + 1
  | .cat a b => reSize a + reSize b + 1
  | .star a => reSize a + 2
  | .rep1 a => 2 * reSize a + 5
  | .quest a => reSize a + 1

/-- Try a match starting at every position (re search semantics). -/
def searchFrom (fuel : Nat) (r : RE) : Option Char → List Char → Bool
  | prev, [] => reMatch fuel r prev [] (fun _ _ => true)
  | prev, c :: rest =>
      reMatch fuel r prev (c :: rest) (fun _ _ => true) ||
        searchFrom fuel r (some c) rest

/-- Boolean search of a compiled pattern in a text (pattern.search(t)). -/
def searchR (r : RE) (t : String) : Bool :=
  searchFrom ((reSize r + 2) * (t.length + 2) * 4 + 16) r none t.data

/-! ### Pattern-building helpers used to transcribe the source regexes -/

/-- Concatenation of a list of pieces. -/
def reSeq (l : List RE) : RE := l.foldr RE.cat RE.eps

/-- Alternation of a list of branches (the branch list is never empty in
the source patterns; an empty list yields a never-matching pattern). -/
def reAlt : List RE → RE
  | [] => RE.cls []
  | [r] => r
  | r :: rest => RE.alt r (reAlt rest)

/-- A literal string piece. -/
def reLit (s : String) : RE := reSeq (s.data.map RE.lit)

/-- One-or-more whitespace (backslash-s one-or-more). -/
def reSp : RE := RE.rep1 (RE.cls wsChars)

/-- Words of a phrase joined by one-or-more whitespace. -/
def rePhraseCore : List String → RE
  | [] => RE.eps
  | [w] => reLit w
  | w :: rest => RE.cat (reLit w) (RE.cat reSp (rePhraseCore rest))

/-- A whole phrase bounded by word boundaries on both sides. -/
def rePhrase (ws : List String) : RE :=
  RE.cat RE.wb (RE.cat (rePhraseCore ws) RE.wb)

/-! ## Civil dates and calendar arithmetic -/

structure CivDate where
  year : Nat
  month : Nat
  day : Nat
deriving DecidableEq

def isLeap (y : Nat) : Bool := (y % 4 = 0 && y % 100 ≠ 0) || y % 400 = 0

def daysInMonth (y m : Nat) : Nat :=
  if m = 2 then (if isLeap y then 29 else 28)
  else if m = 4 || m = 6 || m = 9 || m = 11 then 30
  else 31

def daysBeforeYear (y : Nat) : Nat :=
  365 * (y - 1) + (y - 1) / 4 - (y - 1) / 100 + (y - 1) / 400

def daysBeforeMonth (y m : Nat) : Nat :=
  (List.range (m - 1)).foldl (fun a i => a + daysInMonth y (i + 1)) 0

/-- Proleptic-Gregorian ordinal day number (day 1 is year 1, January 1). -/
def ordDate (dt : CivDate) : Int :=
  ((daysBeforeYear dt.year + daysBeforeMonth dt.year dt.month + dt.day : Nat) : Int)

/-- Monday-is-zero weekday, as pandas dt.weekday: the proleptic ordinal 1
(year 1, January 1) is a Monday. -/
def weekday0 (dt : CivDate) : Nat :=
  (daysBeforeYear dt.year + daysBeforeMonth dt.year dt.month + dt.day + 6) % 7

/-- pandas MonthEnd(0): roll forward to the month end, staying put when the
(midnight) timestamp already is the month's last day. -/
def monthEnd0 (dt : CivDate) : CivDate :=
  if dt.day = daysInMonth dt.year dt.month then dt
  else ⟨dt.year, dt.month, daysInMonth dt.year dt.month⟩

/-- pandas MonthEnd(-1) on a midnight timestamp: the previous month's last
day (rolling back, whether or not the date is a month end). -/
def prevMonthEnd (dt : CivDate) : CivDate :=
  if dt.month = 1 then ⟨dt.year - 1, 12, 31⟩
  else ⟨dt.year, dt.month - 1, daysInMonth dt.year (dt.month - 1)⟩

/-! ## Cells and tables

A table value is missing (NaN / NA / None), a string, a number, a parsed
date, or a boolean.  Dates that pandas to_datetime can parse are embedded
as date cells; every other cell is unparseable for the calendar steps. -/

inductive Cell where
  | na
  | str (s : String)
  | num (q : ℚ)
  | date (d : CivDate)
  | bool (b : Bool)
deriving DecidableEq

def Cell.isNa : Cell → Bool
  | .na => true
  | _ => false

/-- Rendering used by astype string on non-string cells (the pipeline only
exercises it on string or missing cells). -/
def cellRepr : Cell → String
  | .na => ""
  | .str s => s
  | .num q => toString q
  | .date d => toString d.year ++ "-" ++ toString d.month ++ "-" ++ toString d.day
  | .bool b => toString b

/-- Total comparison on cells; between two strings it is the lexicographic
order (the only case the pipeline's mode tie-break exercises). -/
def cellRank : Cell → Nat
  | .na => 0
  | .bool _ => 1
  | .num _ => 2
  | .str _ => 3
  | .date _ => 4

def cellLe (a b : Cell) : Bool :=
  match a, b with
  | .str s, .str t => decide (s ≤ t)
  | .num p, .num q => decide (p ≤ q)
  | .bool p, .bool q => !p || q
  | .date d, .date e =>
      decide (ordDate d < ordDate e) || decide (ordDate d = ordDate e)
  | x, y => decide (cellRank x ≤ cellRank y)

/-- A row is an association list from column name to cell. -/
abbrev Row : Type := List (String × Cell)

/-- A table: ordered column names and ordered rows. -/
structure DF where
  cols : List String
  rows : List Row
deriving DecidableEq

/-- Value of a row at a column (missing when the row has no entry). -/
def cellOf (r : Row) (c : String) : Cell :=
  (List.lookup c r).getD Cell.na

/-- Overwrite (or append) one entry of a row. -/
def setEntry : Row → String → Cell → Row
  | [], c, v => [(c, v)]
  | (k, w) :: rest, c, v =>
      if k = c then (c, v) :: rest else (k, w) :: setEntry rest c v

/-- Column extraction as a cell list, row by row. -/
def getColCells (df : DF) (c : String) : List Cell :=
  df.rows.map (fun r => cellOf r c)

/-- Column assignment: a new column is appended at the end of the column
list, an existing column is overwritten in place. -/
def setColCells (df : DF) (c : String) (vs : List Cell) : DF :=
  { cols := if c ∈ df.cols then df.cols else df.cols ++ [c],
    rows := List.zipWith (fun r v => setEntry r c v) df.rows vs }

/-- Cell at row index i and column c (missing when out of range). -/
def dfCell (df : DF) (i : Nat) (c : String) : Cell :=
  match df.rows.get? i with
  | some r => cellOf r c
  | none => Cell.na

def countTrue (l : List Bool) : Nat := (l.filter id).length

/-- Python truthiness of an optional string (None and the empty string are
falsy). -/
def pyTruthyStr : Option String → Bool
  | none => false
  | some s => s ≠ ""

/-! ## Per-step statistics objects -/

structure CrossStats where
  filledHechoFromCatalogo : Nat
  filledCatalogoFromHecho : Nat
deriving DecidableEq

structure CompStats where
  counts : List (Cell × Nat)
deriving DecidableEq

structure ClassifyStats where
  groupCounts : List (Cell × Nat)
  macroCounts : List (Cell × Nat)
  macroPct : List (Cell × ℚ)
  nTotal : Nat
  source : String
deriving DecidableEq

structure LatLngStats where
  latNaBefore : Nat
  lngNaBefore : Nat
  latNaAfter : Nat
  lngNaAfter : Nat
deriving DecidableEq

structure WeatherStats where
  matched : Nat
  unmatched : Nat
  total : Nat
deriving DecidableEq

/-- value_counts over a cell list (counts of each distinct non-missing
value; dropna false keeps the missing count as well). -/
def valueCounts (l : List Cell) : List (Cell × Nat) :=
  l.dedup.map (fun v => (v, l.count v))

/-! ## Ruleset configuration (regex_loader.RegexConfig) -/

structure RegexConfig where
  patterns : List (String × RE)
  order : List String
  macroMap : List (String × String)
  violentSet : List String
deriving DecidableEq

/-! ### The embedded fallback ruleset of _get_regex_runtime -/

def clsOAcc : RE := RE.cls ['O', 'Ó']

def rePatSexual : RE :=
  reAlt [rePhrase ["VIOLACION"], rePhrase ["ABUSO", "SEXUAL"],
    rePhrase ["ACOSO", "SEXUAL"], rePhrase ["HOSTIGAMIENTO", "SEXUAL"],
    rePhrase ["CONTRA", "LA", "INTIMIDAD", "SEXUAL"]]

def rePatInjuryWeapon : RE :=
  reAlt [reSeq [RE.wb, reLit ("LESIONES"), RE.wb, RE.star RE.dot, RE.wb,
      reLit ("ARMA"),
      RE.quest (reSeq [reSp, reLit ("DE"), reSp, reLit ("FUEGO")]), RE.wb],
    rePhrase ["DISPARO"]]

def rePatInjuryIntentional : RE :=
  reAlt [reSeq [RE.wb, reLit ("LESIONES"), reSp, reLit ("INTENCIONALE"),
      RE.quest (RE.lit 'S'), RE.wb],
    rePhrase ["GOLPES"]]

def rePatThreats : RE :=
  reAlt [reSeq [RE.wb, reLit ("AMENAZA"), RE.quest (RE.lit 'S'), RE.wb],
    reSeq [RE.wb, reLit ("EXTORSI"), clsOAcc, reLit ("N"), RE.wb],
    reSeq [RE.wb, reLit ("TENTATIVA"), reSp, reLit ("DE"), reSp,
      reLit ("EXTORSI"), clsOAcc, reLit ("N"), RE.wb]]

def rePatFamilyViolence : RE := rePhrase ["VIOLENCIA", "FAMILIAR"]

def rePatDrug : RE :=
  reAlt [rePhrase ["NARCOMENUDEO"],
    reSeq [RE.wb, reLit ("POSESI"), clsOAcc, reLit ("N"), reSp,
      reLit ("SIMPLE"), RE.wb],
    reSeq [RE.wb, reLit ("DROGA"), RE.quest (RE.lit 'S'), RE.wb]]

def rePatFraud : RE :=
  reAlt [rePhrase ["FRAUDE"], rePhrase ["COBRANZA", "ILEGITIMA"],
    reSeq [RE.wb, reLit ("ENGA"), RE.cls ['N', 'Ñ'], reLit ("O"), RE.wb],
    rePhrase ["ESTAFA"], rePhrase ["ABUSO", "DE", "CONFIANZA"]]

def rePatForgery : RE :=
  reAlt [reSeq [RE.wb, reLit ("FALSIFICACI"), clsOAcc, reLit ("N"), RE.wb,
      RE.star RE.dot, RE.wb, reLit ("DOCUMENTO"), RE.quest (RE.lit 'S'), RE.wb],
    reSeq [RE.wb, reLit ("FALSIFICACI"), clsOAcc, reLit ("N"), reSp,
      reLit ("DE"), reSp, reLit ("T"), RE.cls ['I', 'Í'], reLit ("TULOS"), RE.wb],
    rePhrase ["USO", "DE", "DOCUMENTO", "FALSO"],
    rePhrase ["USO", "INDEBIDO", "DE", "DOCUMENTOS"],
    rePhrase ["FALSEDAD", "ANTE", "AUTORIDADES"]]

def rePatAdmin : RE :=
  reAlt [reSeq [RE.wb, reLit ("ADMINISTRACI"), clsOAcc, reLit ("N"), reSp,
      reLit ("DE"), reSp, reLit ("JUSTICIA"), RE.wb],
    rePhrase ["ENCUBRIMIENTO"],
    reSeq [RE.wb, reLit ("NEGACI"), clsOAcc, reLit ("N"), reSp,
      reLit ("DEL"), reSp, reLit ("SERVICIO"), reSp, reLit ("PUBLICO"), RE.wb],
    rePhrase ["QUEBRANTAMIENTO", "DE", "SELLOS"],
    rePhrase ["CONTRA", "EL", "CUMPLIMIENTO", "DE", "LA", "OBLIGACION",
      "ALIMENTARIA"],
    rePhrase ["DELITOS", "AMBIENTALES"],
    reSeq [RE.wb, reLit ("DISCRIMINACI"), clsOAcc, reLit ("N"), RE.wb],
    reSeq [RE.wb, reLit ("ATAQUE"), reSp, reLit ("A"), reSp, reLit ("LAS"),
      reSp, reLit ("VIAS"), reSp, reLit ("GENERALES"), reSp, reLit ("DE"),
      reSp, reLit ("COMUNICACI"), clsOAcc, reLit ("N"), RE.wb],
    reSeq [RE.wb, reLit ("OMISI"), clsOAcc, reLit ("N"), reSp, reLit ("DE"),
      reSp, reLit ("AUXILIO"), RE.wb],
    reSeq [RE.wb, reLit ("OMISI"), clsOAcc, reLit ("N"), reSp, reLit ("DE"),
      reSp, reLit ("CUIDADO"), RE.wb]]

def rePatAccountHolder : RE :=
  reAlt [rePhrase ["CUENTAHABIENTE"], rePhrase ["CAJERO"]]

def rePatBusiness : RE :=
  reAlt [rePhrase ["ROBO", "A", "NEGOCIO"], rePhrase ["COMERCIO"],
    rePhrase ["TIENDA"],
    reSeq [RE.wb, reLit ("ROBO"), reSp, reLit ("S/V"), reSp, reLit ("DENTRO"),
      reSp, reLit ("DE"), reSp, reLit ("NEGOCIO"), RE.quest (RE.lit 'S'), RE.wb],
    reSeq [RE.wb, reLit ("AUTOSERVICIO"), RE.quest (RE.lit 'S'), RE.wb],
    rePhrase ["CONVENIENCIA"]]

def rePatHome : RE :=
  reAlt [reSeq [RE.wb, reLit ("CASA"), reSp, reLit ("HABITACI"), clsOAcc,
      reLit ("N"), RE.wb],
    rePhrase ["DOMICILIO"], rePhrase ["VIVIENDA"],
    rePhrase ["ALLANAMIENTO", "DE", "MORADA"], rePhrase ["DESPACHO"],
    rePhrase ["OFICINA"], rePhrase ["ESTABLECIMIENTO", "MERCANTIL"]]

def rePatDelivery : RE := rePhrase ["REPARTIDOR"]

def rePatForceOther : RE :=
  reSeq [RE.bol, RE.star (RE.cls wsChars), reLit ("DE"), reSp, reLit ("LA"),
    reSp, reLit ("VIA"), reSp, reLit ("PUBLICA"), RE.star (RE.cls wsChars),
    RE.eol]

def rePatPedestrian : RE :=
  RE.alt
    (reSeq [RE.wb, reLit ("ROBO"), reSp, reLit ("A"), reSp,
      reLit ("TRANSEUNTE"), RE.wb, RE.star RE.dot, RE.wb, reLit ("A"), reSp,
      reLit ("BORDO"), reSp, reLit ("DE"), RE.quest (RE.lit 'L'), reSp,
      reAlt [reLit ("TAXI"), reLit ("METROBUS"), reLit ("METRO"),
        reLit ("MICROBUS"), reLit ("AUTOBUS"), reLit ("CAMION"),
        reLit ("PESERO"), reLit ("COMBI"), reLit ("COLECTIVO"), reLit ("RTP"),
        reLit ("TROLEBUS"), reLit ("UBER"), reLit ("DIDI")], RE.wb])
    (rePhrase ["ROBO", "A", "TRANSEUNTE", "CONDUCTOR", "DE", "TAXI"])

/-- The embedded fallback ruleset (pattern table of _get_regex_runtime). -/
def embeddedPatterns : List (String × RE) :=
  [("SEXUAL_CRIME", rePatSexual),
   ("INJURY_WEAPON", rePatInjuryWeapon),
   ("INJURY_INTENTIONAL", rePatInjuryIntentional),
   ("THREATS", rePatThreats),
   ("FAMILY_VIOLENCE", rePatFamilyViolence),
   ("DRUG_POSSESSION", rePatDrug),
   ("FRAUD", rePatFraud),
   ("FORGERY_DOC", rePatForgery),
   ("ADMIN_OFFENSE", rePatAdmin),
   ("ROBBERY_ACCOUNT_HOLDER", rePatAccountHolder),
   ("ROBBERY_BUSINESS", rePatBusiness),
   ("ROBBERY_HOME", rePatHome),
   ("ROBBERY_DELIVERY", rePatDelivery),
   ("FORCE_OTHER", rePatForceOther),
   ("ROBBERY_PEDESTRIAN_PRIORITY", rePatPedestrian)]

def embeddedOrder : List String :=
  ["SEXUAL_CRIME", "INJURY_WEAPON", "INJURY_INTENTIONAL", "THREATS",
   "FAMILY_VIOLENCE", "ROBBERY_PEDESTRIAN_PRIORITY",
   "ROBBERY_ACCOUNT_HOLDER", "ROBBERY_BUSINESS", "ROBBERY_HOME",
   "ROBBERY_DELIVERY", "FORCE_OTHER", "DRUG_POSSESSION", "FRAUD",
   "FORGERY_DOC", "ADMIN_OFFENSE"]

def embeddedMacroMap : List (String × String) :=
  [("ROBBERY_PEDESTRIAN_PRIORITY", "ROBBERY_PERSON"),
   ("ROBBERY_ACCOUNT_HOLDER", "ROBBERY_PERSON"),
   ("ROBBERY_BUSINESS", "ROBBERY_PROPERTY"),
   ("ROBBERY_HOME", "ROBBERY_PROPERTY"),
   ("ROBBERY_DELIVERY", "ROBBERY_PROPERTY"),
   ("SEXUAL_CRIME", "VIOLENT_OTHER"),
   ("INJURY_WEAPON", "VIOLENT_OTHER"),
   ("INJURY_INTENTIONAL", "VIOLENT_OTHER"),
   ("THREATS", "VIOLENT_OTHER"),
   ("FAMILY_VIOLENCE", "VIOLENT_OTHER"),
   ("DRUG_POSSESSION", "LOW_IMPACT"),
   ("FRAUD", "LOW_IMPACT"),
   ("FORGERY_DOC", "LOW_IMPACT"),
   ("ADMIN_OFFENSE", "NON_CRIME_OTHER"),
   ("FORCE_OTHER", "LOW_IMPACT")]

def embeddedViolentSet : List String :=
  ["SEXUAL_CRIME", "INJURY_WEAPON", "INJURY_INTENTIONAL", "THREATS",
   "FAMILY_VIOLENCE"]

def embeddedRegexRuntime : RegexConfig :=
  { patterns := embeddedPatterns, order := embeddedOrder,
    macroMap := embeddedMacroMap, violentSet := embeddedViolentSet }

/-! ## Configuration loading (regex_loader.load_regex_config)

The YAML parse and the pattern-string compilation are external inputs: a
parsed document is a record of optional top-level entries whose pattern
values are already in compiled form (a single pattern or a list of
patterns, or a value of some other shape). -/

inductive PatVal where
  | one (r : RE)
  | many (rs : List RE)
  | other
deriving DecidableEq

structure YamlCfg where
  patterns : Option (List (String × PatVal))
  order : Option (List String)
  macroMap : Option (List (String × String))
  violentSet : Option (List String)
deriving DecidableEq

/-- Per-group normalisation of the pattern value: a bare pattern becomes a
one-element list, a non-empty list is joined into one alternation, anything
else is a configuration error. -/
def compilePatVal (key : String) : PatVal → Except String RE
  | .one r => .ok r
  | .many [] => .error (String.append (String.append ("patterns.") key)
      (" must be list or string"))
  | .many (r :: rs) => .ok (reAlt (r :: rs))
  | .other => .error (String.append (String.append ("patterns.") key)
      (" must be list or string"))

def compilePatterns : List (String × PatVal) → Except String (List (String × RE))
  | [] => .ok []
  | (k, v) :: rest => do
      let r ← compilePatVal k v
      let tail ← compilePatterns rest
      .ok ((k, r) :: tail)

/-- load_regex_config on a parsed document: require the four top-level
keys, require a non-empty patterns mapping, compile each group's pattern
list, and require every order entry to name a defined pattern group.  No
check relates the macro mapping to the pattern groups. -/
def loadRegexConfig (cfg : YamlCfg) : Except String RegexConfig := do
  let rawPatterns ← match cfg.patterns with
    | none => .error ("regex config missing patterns")
    | some p => .ok p
  let order ← match cfg.order with
    | none => .error ("regex config missing order")
    | some o => .ok o
  let macroMp ← match cfg.macroMap with
    | none => .error ("regex config missing macro_map")
    | some m => .ok m
  let violent ← match cfg.violentSet with
    | none => .error ("regex config missing violent_set")
    | some v => .ok v
  if rawPatterns.isEmpty then
    .error ("patterns must be a non-empty dict")
  else do
    let compiled ← compilePatterns rawPatterns
    match order.find? (fun k => (List.lookup k compiled).isNone) with
    | some k => .error (String.append ("order contains key with no pattern: ") k)
    | none =>
        .ok { patterns := compiled, order := order, macroMap := macroMp,
              violentSet := violent }

/-- _get_regex_runtime: an external path is loaded when supplied (Python
truthiness: a None or empty path is not supplied), and any loading error is
swallowed, falling back to the embedded ruleset.  The document reader
stands for open + yaml.safe_load. -/
def getRegexRuntime (regexPath : Option String)
    (readCfg : String → Except String YamlCfg) : RegexConfig :=
  if pyTruthyStr regexPath then
    match (readCfg (regexPath.getD (""))).bind loadRegexConfig with
    | .ok c => c
    | .error _ => embeddedRegexRuntime
  else embeddedRegexRuntime

/-! ## The classifier (classify_regex) -/

/-- Does the group's pattern match the text (pattern.search)? -/
def groupMatches (rx : RegexConfig) (k : String) (t : String) : Bool :=
  match List.lookup k rx.patterns with
  | some p => searchR p t
  | none => false

/-- _first_match, sweep of the order list. -/
def firstMatchAux (rx : RegexConfig) (t : String) : List String → String
  | [] => "OTHER"
  | k :: rest => if groupMatches rx k t then k else firstMatchAux rx t rest

/-- _first_match: the first group of the configured order whose pattern
matches; the sentinel when none does. -/
def firstMatchGroup (rx : RegexConfig) (t : String) : String :=
  firstMatchAux rx t rx.order

/-- Python round-half-even of q to 2 decimal places. -/
def pyRound2 (q : ℚ) : ℚ :=
  let r := q * 100
  let n := ⌊r⌋
  let frac := r - n
  let up :=
    if frac > 1 / 2 then n + 1
    else if frac < 1 / 2 then n
    else if n % 2 = 0 then n else n + 1
  (up : ℚ) / 100

/-- norm_series value then fillna of the missing entries by the empty
string (the text actually handed to _first_match). -/
def textoOfCell : Cell → String
  | .na => ""
  | .str s => normStr s
  | c => normStr (cellRepr c)

/-- Add an all-missing string column when the named column is absent
(pd.Series of None). -/
def ensureCol (df : DF) (c : String) : DF :=
  if c ∈ df.cols then df else setColCells df c (df.rows.map (fun _ => Cell.na))

/-- The secondary pedestrian-robbery flag of one row: primary-group
equality OR-ed with an independent search of the priority pattern (when
the ruleset has one). -/
def pasFlagWith (pasajeroRe : Option RE) (g t : String) : Bool :=
  g = "ROBBERY_PEDESTRIAN_PRIORITY" ||
    (match pasajeroRe with | some p => searchR p t | none => false)

/-- classify_regex body given an already-resolved runtime and source flag;
the derived columns are assigned in the order of the source. -/
def classifyCore (rx : RegexConfig) (sourceFlag : String) (df : DF)
    (delitoCol grupoCol violenciaCol pasajeroCol : String) :
    DF × ClassifyStats :=
  let df0 := ensureCol df delitoCol
  let texto := (getColCells df0 delitoCol).map textoOfCell
  let grupos := texto.map (firstMatchGroup rx)
  let df1 := setColCells df0 grupoCol (grupos.map Cell.str)
  let df2 := setColCells df1 ("delito_grupo_macro")
    (grupos.map (fun k => Cell.str ((List.lookup k rx.macroMap).getD ("NON_CRIME_OTHER"))))
  let df3 := setColCells df2 violenciaCol
    (grupos.map (fun k =>
      Cell.str (if rx.violentSet.contains k then "VIOLENT" else "NON_VIOLENT")))
  let pasajeroRe := List.lookup ("ROBBERY_PEDESTRIAN_PRIORITY") rx.patterns
  let flags := List.zipWith (pasFlagWith pasajeroRe) grupos texto
  let df4 := setColCells df3 pasajeroCol (flags.map Cell.bool)
  let counts := valueCounts (getColCells df4 grupoCol)
  let macroCounts := valueCounts (getColCells df4 ("delito_grupo_macro"))
  let total : Nat := max ((macroCounts.map (·.2)).foldl (· + ·) 0) 1
  let pct := macroCounts.map (fun p => (p.1, pyRound2 (p.2 * 100 / (total : ℚ))))
  (df4,
   { groupCounts := counts, macroCounts := macroCounts, macroPct := pct,
     nTotal := df4.rows.length, source := sourceFlag })

/-- The source flag recorded in the classification statistics: it depends
only on whether a (truthy) path was supplied. -/
def sourceFlagOf (regexPath : Option String) : String :=
  if pyTruthyStr regexPath then ("external") else ("embedded")

/-- classify_regex: resolve the runtime from the optional external path and
classify. -/
def classifyRegex (df : DF) (delitoCol grupoCol violenciaCol pasajeroCol : String)
    (regexPath : Option String) (readCfg : String → Except String YamlCfg) :
    DF × ClassifyStats :=
  classifyCore (getRegexRuntime regexPath readCfg) (sourceFlagOf regexPath)
    df delitoCol grupoCol violenciaCol pasajeroCol

/-! ## Cross-fill of the two colonia fields (cross_fill_colonias) -/

/-- First pass of cross_fill_colonias: fill missing colonia_hecho from a
present colonia_catalogo (operates only when both columns exist). -/
def crossFillStepH (colH colC : String) (df : DF) : DF :=
  if colH ∈ df.cols ∧ colC ∈ df.cols then
    { cols := df.cols,
      rows := df.rows.map (fun r =>
        if (cellOf r colH).isNa && !(cellOf r colC).isNa then
          setEntry r colH (cellOf r colC)
        else r) }
  else df

/-- Second pass (computed on the table updated by the first pass). -/
def crossFillStepC (colH colC : String) (df : DF) : DF :=
  if colH ∈ df.cols ∧ colC ∈ df.cols then
    { cols := df.cols,
      rows := df.rows.map (fun r =>
        if (cellOf r colC).isNa && !(cellOf r colH).isNa then
          setEntry r colC (cellOf r colH)
        else r) }
  else df

/-- The fill counts reported by cross_fill_colonias (the second mask is
taken on the table updated by the first pass, as in the source). -/
def crossFillStats (df : DF) (colH colC : String) : CrossStats :=
  if colH ∈ df.cols ∧ colC ∈ df.cols then
    { filledHechoFromCatalogo := countTrue (df.rows.map (fun r =>
        (cellOf r colH).isNa && !(cellOf r colC).isNa)),
      filledCatalogoFromHecho :=
        countTrue ((crossFillStepH colH colC df).rows.map (fun r =>
          (cellOf r colC).isNa && !(cellOf r colH).isNa)) }
  else { filledHechoFromCatalogo := 0, filledCatalogoFromHecho := 0 }

def crossFillColonias (df : DF) (colH colC : String) : DF × CrossStats :=
  (crossFillStepC colH colC (crossFillStepH colH colC df),
   crossFillStats df colH colC)

/-! ## Jurisdiction completion (fill_competencia) -/

/-- Does the first list lead (start) the second? -/
def leadsList : List Char → List Char → Bool
  | [], _ => true
  | _ :: _, [] => false
  | p :: ps, c :: cs => p = c && leadsList ps cs

/-- Substring containment on character lists. -/
def subListAt : List Char → List Char → Bool
  | [], _ => true
  | _ :: _, [] => false
  | p :: ps, c :: cs => (p = c && leadsList ps cs) || subListAt (p :: ps) cs

def containsSub (hay pat : String) : Bool :=
  if pat.data.isEmpty then true else subListAt pat.data hay.data

/-- The missingness test of fill_competencia: NA, or a present value whose
stripped string form is empty. -/
def blankCell : Cell → Bool
  | .na => true
  | .str s => pyStrip s = ""
  | _ => false

/-- norm_series applied to one cell. -/
def normCellStr : Cell → Cell
  | .na => .na
  | .str s => .str (normStr s)
  | c => .str (normStr (cellRepr c))

/-- _rule applied to the normalised text of the competencia value. -/
def competenciaRule : Cell → Cell
  | .str t =>
      if containsSub t ("federal") then .str ("FEDERAL")
      else if containsSub t ("local") then .str ("LOCAL")
      else .na
  | _ => .na

/-- Series.mode().iloc[0] of a cell multiset: among the most frequent
non-missing values, the smallest in sort order; missing when the group has
no non-missing value. -/
def modeCell (vs : List Cell) : Cell :=
  let vals := vs.filter (fun c => !c.isNa)
  let cand := vals.dedup
  let maxCount := (cand.map (fun v => vals.count v)).foldl max 0
  let best := cand.filter (fun v => vals.count v = maxCount)
  match best with
  | [] => Cell.na
  | b :: bs => bs.foldl (fun a v => if cellLe v a then v else a) b

/-- Group-wise mode of the target column keyed by the group column: the
value the groupby-mode dictionary assigns to key k. -/
def groupModeAt (df : DF) (keyCol valCol : String) (k : Cell) : Cell :=
  if k.isNa then Cell.na
  else modeCell ((df.rows.filter (fun r => cellOf r keyCol = k)).map
    (fun r => cellOf r valCol))

/-- Step 0: create the competencia column when absent. -/
def compStepEnsure (compCol : String) (df : DF) : DF := ensureCol df compCol

/-- Step 1: token rule on the blank-or-missing entries (the normalised own
text of the value; blank present values are overwritten here). -/
def compStepRule (compCol : String) (df : DF) : DF :=
  { cols := df.cols,
    rows := df.rows.map (fun r =>
      if blankCell (cellOf r compCol) then
        setEntry r compCol (competenciaRule (normCellStr (cellOf r compCol)))
      else r) }

/-- Step 2: group-mode fill by alcaldia for values still missing, skipped
when the alcaldia column is absent.  The mode table is computed on the
table state after step 1. -/
def compStepMode (compCol alcCol : String) (df : DF) : DF :=
  if alcCol ∈ df.cols then
    { cols := df.cols,
      rows := df.rows.map (fun r =>
        if (cellOf r compCol).isNa then
          setEntry r compCol (groupModeAt df alcCol compCol (cellOf r alcCol))
        else r) }
  else df

/-- Step 3: fillna UNKNOWN and astype string. -/
def compStepFinal (compCol : String) (df : DF) : DF :=
  { cols := df.cols,
    rows := df.rows.map (fun r =>
      setEntry r compCol
        (match cellOf r compCol with
         | .na => .str ("UNKNOWN")
         | c => .str (cellRepr c))) }

def fillCompetencia (df : DF) (compCol alcCol : String) : DF × CompStats :=
  let out := compStepFinal compCol
    (compStepMode compCol alcCol (compStepRule compCol (compStepEnsure compCol df)))
  (out, { counts := valueCounts (getColCells out compCol) })

/-! ## Calendar features (add_weekday_features, add_quincena_window) -/

/-- to_datetime with coerce on one cell: parsed dates pass through, every
other value becomes NaT. -/
def toDateCell : Cell → Option CivDate
  | .date d => some d
  | _ => none

def weekdayName : Nat → String
  | 0 => "Lunes"
  | 1 => "Martes"
  | 2 => "Miércoles"
  | 3 => "Jueves"
  | 4 => "Viernes"
  | 5 => "Sábado"
  | _ => "Domingo"

/-- Weekday number column (dt.weekday + 1; NaT propagates to missing). -/
def weekdayNumStep (dateCol numCol : String) (df : DF) : DF :=
  setColCells df numCol ((getColCells df dateCol).map (fun c =>
    match toDateCell c with
    | some d => Cell.num ((weekday0 d + 1 : Nat) : ℚ)
    | none => Cell.na))

/-- Weekday name column. -/
def weekdayNameStep (dateCol nameCol : String) (df : DF) : DF :=
  setColCells df nameCol ((getColCells df dateCol).map (fun c =>
    match toDateCell c with
    | some d => Cell.str (weekdayName (weekday0 d))
    | none => Cell.na))

def addWeekdayCore (df : DF) (dateCol nameCol numCol : String) : DF :=
  weekdayNameStep dateCol nameCol (weekdayNumStep dateCol numCol df)

/-- add_weekday_features; indexing a missing date column raises. -/
def addWeekdayFeatures (df : DF) (dateCol nameCol numCol : String) :
    Except String DF :=
  if dateCol ∈ df.cols then .ok (addWeekdayCore df dateCol nameCol numCol)
  else .error (String.append ("KeyError: ") dateCol)

/-- The minimum day distance the code computes: to the first of the month
plus 14 days, to MonthEnd(0), and to MonthEnd(-1). -/
def quincenaDistCode (dt : CivDate) : Nat :=
  let o := ordDate dt
  let d15 := (o - (ordDate ⟨dt.year, dt.month, 1⟩ + 14)).natAbs
  let deom := (o - ordDate (monthEnd0 dt)).natAbs
  let dpeom := (o - ordDate (prevMonthEnd dt)).natAbs
  min (min d15 deom) dpeom

/-- The quincena window column: in-window label iff the minimum anchor
distance is at most the threshold; unparseable dates get the out label
(NaN compares false and fillna(False) keeps it false). -/
def quincenaStep (dateCol : String) (windowDays : Nat)
    (outCol inLabel outLabel : String) (df : DF) : DF :=
  setColCells df outCol ((getColCells df dateCol).map (fun c =>
    match toDateCell c with
    | some d => Cell.str (if quincenaDistCode d ≤ windowDays then inLabel else outLabel)
    | none => Cell.str outLabel))

def addQuincenaCore (df : DF) (dateCol : String) (windowDays : Nat)
    (outCol inLabel outLabel : String) : DF :=
  quincenaStep dateCol windowDays outCol inLabel outLabel df

/-- add_quincena_window; indexing a missing date column raises. -/
def addQuincenaWindow (df : DF) (dateCol : String) (windowDays : Nat)
    (outCol inLabel outLabel : String) : Except String DF :=
  if dateCol ∈ df.cols then
    .ok (addQuincenaCore df dateCol windowDays outCol inLabel outLabel)
  else .error (String.append ("KeyError: ") dateCol)

/-! ## Coordinate completion (fill_latlng_medians) -/

def numOfCell : Cell → Option ℚ
  | .num q => some q
  | _ => none

/-- Insertion sort of rationals (for the median). -/
def insertQ (x : ℚ) : List ℚ → List ℚ
  | [] => [x]
  | y :: ys => if x ≤ y then x :: y :: ys else y :: insertQ x ys

def sortQ (l : List ℚ) : List ℚ := l.foldr insertQ []

/-- Median with NaN-skipping: missing when no numeric value exists, the
middle element for odd counts, the mean of the two middles for even. -/
def medianQ (l : List ℚ) : Option ℚ :=
  let s := sortQ l
  let n := s.length
  if n = 0 then none
  else if n % 2 = 1 then s.get? (n / 2)
  else
    match s.get? (n / 2 - 1), s.get? (n / 2) with
    | some a, some b => some ((a + b) / 2)
    | _, _ => none

/-- The groupby median dictionary value at key k (missing keys, missing
groups and all-missing groups give NaN). -/
def groupMedianAt (df : DF) (keyCol valCol : String) (k : Cell) : Cell :=
  if k.isNa then Cell.na
  else
    match medianQ (((df.rows.filter (fun r => cellOf r keyCol = k)).map
      (fun r => cellOf r valCol)).filterMap numOfCell) with
    | some q => Cell.num q
    | none => Cell.na

/-- One fill pass: rows with a missing target get the group median of
their key (the median table med is from a fixed table state). -/
def latlngFillStep (med : DF) (keyCol tgtCol : String) (df : DF) : DF :=
  { cols := df.cols,
    rows := df.rows.map (fun r =>
      if (cellOf r tgtCol).isNa then
        setEntry r tgtCol (groupMedianAt med keyCol tgtCol (cellOf r keyCol))
      else r) }

def countNaCol (df : DF) (c : String) : Nat :=
  countTrue ((getColCells df c).map Cell.isNa)

/-- fill_latlng_medians: both median tables are computed from the input
table, then colonia-level fills run, then alcaldia-level fills run on the
remaining missing values.  The groupby and column selection raise when the
colonia, alcaldia or coordinate columns are absent. -/
def fillLatLngMedians (df : DF) (latCol lngCol colCol alcCol : String) :
    Except String (DF × LatLngStats) :=
  let lat0 := if latCol ∈ df.cols then countNaCol df latCol else 0
  let lng0 := if lngCol ∈ df.cols then countNaCol df lngCol else 0
  if colCol ∈ df.cols ∧ latCol ∈ df.cols ∧ lngCol ∈ df.cols then
    if alcCol ∈ df.cols then
      let byCol := latlngFillStep df colCol lngCol
        (latlngFillStep df colCol latCol df)
      let out := latlngFillStep df alcCol lngCol
        (latlngFillStep df alcCol latCol byCol)
      .ok (out,
        { latNaBefore := lat0, lngNaBefore := lng0,
          latNaAfter := countNaCol out latCol,
          lngNaAfter := countNaCol out lngCol })
    else .error (String.append ("KeyError: ") alcCol)
  else .error (String.append ("KeyError: ") colCol)

/-! ## Weather enrichment (add_weather_by_alcaldia_fecha) -/

def pad2 (n : Nat) : String := if n < 10 then String.append ("0") (toString n) else toString n

def pad4 (n : Nat) : String :=
  if n < 10 then String.append ("000") (toString n)
  else if n < 100 then String.append ("00") (toString n)
  else if n < 1000 then String.append ("0") (toString n)
  else toString n

/-- strftime of a parsed date as YYYY-MM-DD. -/
def fmtDate (d : CivDate) : String :=
  String.append (pad4 d.year)
    (String.append ("-") (String.append (pad2 d.month)
      (String.append ("-") (pad2 d.day))))

/-- Date-key cell: format the parsed date, NaT formats to missing. -/
def dateKeyCell (c : Cell) : Cell :=
  match toDateCell c with
  | some d => Cell.str (fmtDate d)
  | none => Cell.na

/-- Left-join row extension: the weather cells of every matching weather
row, or missing weather cells when none matches. -/
def weatherMatches (clima : DF) (nameKey dateKey : Cell) : List Row :=
  clima.rows.filter (fun r =>
    cellOf r ("name_key") = nameKey && cellOf r ("date_key") = dateKey)

/-- add_weather_by_alcaldia_fecha on an already-read weather table: check
the required weather columns, build normalised name and date keys on both
sides, left-join temperature and conditions, and drop the helper name
keys (the date_key column remains, as in the source).  A missing alcaldia
or date column on the incident side raises. -/
def addWeatherCore (df clima : DF) (alcCol dateCol outTemp outCond : String) :
    Except String (DF × WeatherStats) :=
  if ¬ (("name") ∈ clima.cols ∧ ("datetime") ∈ clima.cols ∧
        ("temp") ∈ clima.cols ∧ ("conditions") ∈ clima.cols) then
    .error ("Weather CSV must contain: conditions, datetime, name, temp")
  else if alcCol ∉ df.cols then .error (String.append ("KeyError: ") alcCol)
  else if dateCol ∉ df.cols then .error (String.append ("KeyError: ") dateCol)
  else
    let clima2 : DF :=
      { cols := [("name_key"), ("date_key"), outTemp, outCond],
        rows := clima.rows.map (fun r =>
          [(("name_key"), normCellStr (cellOf r ("name"))),
           (("date_key"), dateKeyCell (cellOf r ("datetime"))),
           (outTemp, cellOf r ("temp")),
           (outCond,
             match cellOf r ("conditions") with
             | .na => Cell.na
             | c => Cell.str (pyStrip (cellRepr c)))]) }
    let outRows := df.rows.flatMap (fun r =>
      let nameKey := normCellStr (cellOf r alcCol)
      let dateKey := dateKeyCell (cellOf r dateCol)
      let base := r ++ [(("date_key"), dateKey)]
      match weatherMatches clima2 nameKey dateKey with
      | [] => [base ++ [(outTemp, Cell.na), (outCond, Cell.na)]]
      | ms => ms.map (fun w =>
          base ++ [(outTemp, cellOf w outTemp), (outCond, cellOf w outCond)]))
    let out : DF :=
      { cols := df.cols ++ [("date_key"), outTemp, outCond], rows := outRows }
    let matched := countTrue ((getColCells out outTemp).map (fun c => !c.isNa))
    .ok (out,
      { matched := matched, unmatched := out.rows.length - matched,
        total := out.rows.length })

/-! ## Orchestrator (eda_pipeline.run_eda)

The function sequences the components above; the crosstab tables and the
matplotlib figure it also assembles are presentation artifacts with no
bearing on the cleaned table or the statistics and are not modelled. -/

structure EdaCfg where
  dateCol : String
  alcaldiaCol : String
  quincenaWindow : Nat
  withWeather : Bool
  weatherPath : String
  regexPath : Option String
deriving DecidableEq

structure EdaStats where
  colonias : CrossStats
  competencia : CompStats
  clasificacion : ClassifyStats
  latlng : LatLngStats
  clima : Option WeatherStats
deriving DecidableEq

/-- The weather condition bucket derived after enrichment. -/
def climaBucketCell (c : Cell) : Cell :=
  match c with
  | .na => Cell.na
  | c0 =>
      let x := normStr ((cellRepr c0).replace (",") (""))
      if containsSub x ("rain") then Cell.str ("Rain")
      else if containsSub x ("sun") || containsSub x ("clear") ||
          containsSub x ("partly") then Cell.str ("Sunny")
      else Cell.na

def climaBucketStep (outCond : String) (df : DF) : DF :=
  setColCells df ("clima_bucket")
    ((getColCells df outCond).map climaBucketCell)

/-- run_eda: fixed sequence of cross-fill, jurisdiction completion,
classification, calendar features, coordinate completion and optional
weather enrichment; the ruleset reader and the weather reader stand for
the file system. -/
def runEda (df : DF) (cfg : EdaCfg)
    (readCfg : String → Except String YamlCfg)
    (readWeather : String → Except String DF) :
    Except String (DF × EdaStats) :=
  let r1 := crossFillColonias df ("colonia_hecho") ("colonia_catalogo")
  let r2 := fillCompetencia r1.1 ("competencia") cfg.alcaldiaCol
  let r3 := classifyRegex r2.1 ("delito") ("delito_grupo")
    ("violencia_class") ("robo_pasajero") cfg.regexPath readCfg
  (addWeekdayFeatures r3.1 cfg.dateCol ("weekday") ("weekday_num")).bind
    (fun out4 =>
  (addQuincenaWindow out4 cfg.dateCol cfg.quincenaWindow ("quincena_window")
      ("WINDOW") ("NO_WINDOW")).bind (fun out5 =>
  (fillLatLngMedians out5 ("latitud") ("longitud") ("colonia_hecho")
      ("alcaldia_hecho")).bind (fun p6 =>
  if cfg.withWeather && cfg.weatherPath ≠ "" then
    (readWeather cfg.weatherPath).bind (fun clima =>
    (addWeatherCore p6.1 clima cfg.alcaldiaCol cfg.dateCol ("clima_temp")
        ("clima_conditions")).bind (fun p7 =>
      Except.ok (climaBucketStep ("clima_conditions") p7.1,
        { colonias := r1.2, competencia := r2.2, clasificacion := r3.2,
          latlng := p6.2, clima := some p7.2 })))
  else
    Except.ok (p6.1,
      { colonias := r1.2, competencia := r2.2, clasificacion := r3.2,
        latlng := p6.2, clima := none }))))

/-! ## Merge and deduplication (update_base.update_master_base, steps 3-5) -/

/-- Insert into a strictly sorted list, dropping duplicates. -/
def insertSortedStr (x : String) : List String → List String
  | [] => [x]
  | y :: ys =>
      if x < y then x :: y :: ys
      else if x = y then y :: ys
      else y :: insertSortedStr x ys

/-- sorted(set(l)): strictly ascending, duplicate-free column list. -/
def dedupSortStr (l : List String) : List String :=
  l.foldr insertSortedStr []

/-- reindex of one row to the union column list: columns of the original
table keep their value, the rest are the missing sentinel. -/
def reindexRow (origCols allCols : List String) (r : Row) : Row :=
  allCols.map (fun c => (c, if c ∈ origCols then cellOf r c else Cell.na))

/-- Steps 3-4 of update_master_base: union of columns (sorted set union),
reindex both tables to it, concatenate master rows before new rows. -/
def alignCombine (master newClean : DF) : DF :=
  let allCols := dedupSortStr (master.cols ++ newClean.cols)
  { cols := allCols,
    rows := master.rows.map (reindexRow master.cols allCols) ++
      newClean.rows.map (reindexRow newClean.cols allCols) }

/-- The key tuple of a row. -/
def keyOf (keys : List String) (r : Row) : List Cell :=
  keys.map (fun c => cellOf r c)

/-- drop_duplicates keep last: a row survives iff no later row carries the
same key tuple. -/
def dedupKeepLast (keys : List String) : List Row → List Row
  | [] => []
  | r :: rest =>
      if rest.any (fun r2 => keyOf keys r2 = keyOf keys r) then
        dedupKeepLast keys rest
      else r :: dedupKeepLast keys rest

/-- Step 5 of update_master_base: with a truthy id_cols list, verify every
key column exists in the combined table (a missing one is a fatal error),
then deduplicate keeping the last occurrence. -/
def dedupStep (combined : DF) (idCols : Option (List String)) :
    Except String DF :=
  match idCols with
  | none => .ok combined
  | some [] => .ok combined
  | some (k :: ks) =>
      match (k :: ks).find? (fun c => !combined.cols.contains c) with
      | some c => .error (String.append (String.append ("Columna id ") c)
          (" no existe en el dataframe combinado"))
      | none =>
          .ok { cols := combined.cols,
                rows := dedupKeepLast (k :: ks) combined.rows }

/-- Steps 3-5 of update_master_base (the file reads, the EDA run on the
raw batch, and the file write around them are I/O plumbing): align and
concatenate, then optionally deduplicate. -/
def updateCombine (master newClean : DF) (idCols : Option (List String)) :
    Except String DF :=
  dedupStep (alignCombine master newClean) idCols

/-! ## Object-level mutation discipline

To settle the copy-on-write contract the components are also given an
object-level semantics: a heap of table objects, an environment binding
Python variable names to heap addresses, and three statement forms —
binding a fresh deep copy (df.copy()), binding the fresh result of a
table-producing call, and mutating a bound object in place (column or
.loc assignment).  Each component body is its Python body in this
language, re-using the pure per-statement functions above. -/

inductive PyStmt where
  | copyVar (dst src : String)
  | rebind (dst src : String) (f : DF → DF)
  | inplace (x : String) (f : DF → DF)

structure PyState where
  heap : List DF
  env : List (String × Nat)

def emptyDF : DF := { cols := [], rows := [] }

def lookupVar (st : PyState) (x : String) : Nat :=
  (List.lookup x st.env).getD 0

def heapAt (st : PyState) (i : Nat) : DF := (st.heap.get? i).getD emptyDF

def runStmt (st : PyState) : PyStmt → PyState
  | .copyVar dst src =>
      { heap := st.heap ++ [heapAt st (lookupVar st src)],
        env := (dst, st.heap.length) :: st.env }
  | .rebind dst src f =>
      { heap := st.heap ++ [f (heapAt st (lookupVar st src))],
        env := (dst, st.heap.length) :: st.env }
  | .inplace x f =>
      { heap := st.heap.set (lookupVar st x)
          (f (heapAt st (lookupVar st x))),
        env := st.env }

def runStmts (l : List PyStmt) (st : PyState) : PyState := l.foldl runStmt st

/-- Initial frame of a component call: the caller's table bound to df. -/
def initState (df : DF) : PyState := { heap := [df], env := [(("df"), 0)] }

/-- The table object the caller passed, as the call left it. -/
def callerTableAfter (body : List PyStmt) (df : DF) : DF :=
  heapAt (runStmts body (initState df)) 0

/-- The object bound to out when the body finishes. -/
def outTableAfter (body : List PyStmt) (df : DF) : DF :=
  let st := runStmts body (initState df)
  heapAt st (lookupVar st ("out"))

/-- cross_fill_colonias body: copy, then two masked .loc assignments. -/
def crossFillBody (colH colC : String) : List PyStmt :=
  [.copyVar ("out") ("df"),
   .inplace ("out") (crossFillStepH colH colC),
   .inplace ("out") (crossFillStepC colH colC)]

/-- fill_competencia body: copy, optional column creation, masked rule
assignment, masked mode assignment, fillna-astype assignment. -/
def fillCompetenciaBody (compCol alcCol : String) : List PyStmt :=
  [.copyVar ("out") ("df"),
   .inplace ("out") (compStepEnsure compCol),
   .inplace ("out") (compStepRule compCol),
   .inplace ("out") (compStepMode compCol alcCol),
   .inplace ("out") (compStepFinal compCol)]

/-- classify_regex body: copy, then in-place creation and assignment of
the derived columns (rendered as one composite in-place mutation of out). -/
def classifyBody (rx : RegexConfig) (flag : String)
    (delitoCol grupoCol violenciaCol pasajeroCol : String) : List PyStmt :=
  [.copyVar ("out") ("df"),
   .inplace ("out") (fun o =>
     (classifyCore rx flag o delitoCol grupoCol violenciaCol pasajeroCol).1)]

/-- add_weekday_features body: copy, two column assignments. -/
def weekdayBody (dateCol nameCol numCol : String) : List PyStmt :=
  [.copyVar ("out") ("df"),
   .inplace ("out") (weekdayNumStep dateCol numCol),
   .inplace ("out") (weekdayNameStep dateCol nameCol)]

/-- add_quincena_window body: copy, one column assignment. -/
def quincenaBody (dateCol : String) (w : Nat)
    (outCol inLabel outLabel : String) : List PyStmt :=
  [.copyVar ("out") ("df"),
   .inplace ("out") (quincenaStep dateCol w outCol inLabel outLabel)]

/-- fill_latlng_medians body (success path): copy, then the four masked
.loc fills (one composite in-place mutation of out; the median tables are
snapshots of the state right after the copy, as in the source). -/
def latlngBody (latCol lngCol colCol alcCol : String) : List PyStmt :=
  [.copyVar ("out") ("df"),
   .inplace ("out") (fun o =>
     latlngFillStep o alcCol lngCol (latlngFillStep o alcCol latCol
       (latlngFillStep o colCol lngCol (latlngFillStep o colCol latCol o))))]

/-- add_weather body (success path): copy, key assignments, then merge
rebinding out to a fresh joined table. -/
def weatherBody (clima : DF) (alcCol dateCol outTemp outCond : String) :
    List PyStmt :=
  [.copyVar ("out") ("df"),
   .rebind ("out") ("out") (fun o =>
     match addWeatherCore o clima alcCol dateCol outTemp outCond with
     | .ok (r, _) => r
     | .error _ => o)]

/-- run_eda body: copy, then each component call rebinding out to the
fresh table the component returned. -/
def runEdaBody (cfg : EdaCfg) (readCfg : String → Except String YamlCfg)
    (readWeather : String → Except String DF) : List PyStmt :=
  [.copyVar ("out") ("df"),
   .rebind ("out") ("out") (fun o =>
     match runEda o cfg readCfg readWeather with
     | .ok (r, _) => r
     | .error _ => o)]

/-! ## Statement-side helpers and concrete fixtures -/

def exOk {α : Type} : Except String α → Bool
  | .ok _ => true
  | .error _ => false

/-- The pay-period distance exactly as the specification words it: the
minimum absolute day distance to the 15th of the month, to the month's
last day, and to the previous month's last day. -/
def quincenaDistSpec (dt : CivDate) : Nat :=
  min (min ((ordDate dt - ordDate ⟨dt.year, dt.month, 15⟩).natAbs)
      ((ordDate dt -
        ordDate ⟨dt.year, dt.month, daysInMonth dt.year dt.month⟩).natAbs))
    ((ordDate dt - ordDate (prevMonthEnd dt)).natAbs)

/-- The key tuple of the row at an index (out of range gives the empty
row's key). -/
def keyAtIdx (keys : List String) (rows : List Row) (i : Nat) : List Cell :=
  keyOf keys ((rows.get? i).getD [])

/-- Is index i the last occurrence of its key tuple in the row list? -/
def isLastOccIdx (keys : List String) (rows : List Row) (i : Nat) : Bool :=
  (List.range rows.length).all (fun j =>
    decide (j ≤ i) || decide (keyAtIdx keys rows j ≠ keyAtIdx keys rows i))

/-- A document reader whose file is unreadable or malformed. -/
def badReadCfg : String → Except String YamlCfg :=
  fun _ => .error ("yaml parse error")

/-- A weather reader that always fails (never reached in the fixtures). -/
def noWeather : String → Except String DF :=
  fun _ => .error ("no weather source")

/-- One-row table whose crime description is missing. -/
def dfOneNa : DF :=
  { cols := [("delito")], rows := [[(("delito"), Cell.na)]] }

/-- One-row table whose jurisdiction value is the blank string (present,
not missing). -/
def dfBlankComp : DF :=
  { cols := [("competencia")], rows := [[(("competencia"), Cell.str (""))]] }

/-- One-row table with a present jurisdiction value. -/
def dfLocalComp : DF :=
  { cols := [("competencia")], rows := [[(("competencia"), Cell.str ("LOCAL"))]] }

/-- A parsed ruleset document whose single pattern group has no entry in
the macro mapping. -/
def cfgNoMacro : YamlCfg :=
  { patterns := some [(("A"), PatVal.one (reLit ("CAT")))],
    order := some [("A")],
    macroMap := some [],
    violentSet := some [] }

/-- The runtime cfgNoMacro loads to. -/
def rxNoMacro : RegexConfig :=
  { patterns := [(("A"), reLit ("CAT"))], order := [("A")],
    macroMap := [], violentSet := [] }

/-- Orchestrator configuration with the default column names and no
weather enrichment. -/
def cfgDefault : EdaCfg :=
  { dateCol := ("fecha_hecho"), alcaldiaCol := ("alcaldia_hecho"),
    quincenaWindow := 2, withWeather := false, weatherPath := (""),
    regexPath := none }

/-- Two-row table sharing one key value, the second row carrying different
payload (the new-batch side of a keep-last dedup). -/
def dfDupKeys : DF :=
  { cols := [("id"), ("v")],
    rows := [[(("id"), Cell.num 1), (("v"), Cell.str ("old"))],
             [(("id"), Cell.num 1), (("v"), Cell.str ("new"))]] }

/-- One-row table with a parsed date on the 15th and one unparseable date. -/
def dfDates : DF :=
  { cols := [("fecha_hecho")],
    rows := [[(("fecha_hecho"), Cell.date ⟨2024, 3, 15⟩)],
             [(("fecha_hecho"), Cell.str ("not a date"))]] }

/-- Historical/new fixture pair for the merge claims. -/
def dfHist : DF :=
  { cols := [("id"), ("group")],
    rows := [[(("id"), Cell.num 1), (("group"), Cell.str ("g"))]] }

def dfNew : DF :=
  { cols := [("id"), ("region")],
    rows := [[(("id"), Cell.num 1), (("region"), Cell.str ("r"))]] }

/-! ## General lemmas: rows, column assignment, column sets -/

theorem lookup_setEntry_self (r : Row) (c : String) (v : Cell) :
    List.lookup c (setEntry r c v) = some v := by
  induction r with
  | nil => simp [setEntry]
  | cons p rest ih =>
      cases p with
      | mk k w =>
          by_cases h : k = c
          · simp [setEntry, h]
          · simp [setEntry, h, List.lookup_cons,
              beq_false_of_ne (fun hh : c = k => h hh.symm), ih]

theorem lookup_setEntry_ne (r : Row) (c c2 : String) (v : Cell) (h : c2 ≠ c) :
    List.lookup c2 (setEntry r c v) = List.lookup c2 r := by
  induction r with
  | nil => simp [setEntry, List.lookup_cons, beq_false_of_ne h]
  | cons p rest ih =>
      cases p with
      | mk k w =>
          by_cases hk : k = c
          · subst hk
            simp [setEntry, List.lookup_cons, beq_false_of_ne h]
          · simp [setEntry, hk, List.lookup_cons, ih]

theorem cellOf_setEntry_self (r : Row) (c : String) (v : Cell) :
    cellOf (setEntry r c v) c = v := by
  simp [cellOf, lookup_setEntry_self]

theorem cellOf_setEntry_ne (r : Row) (c c2 : String) (v : Cell) (h : c2 ≠ c) :
    cellOf (setEntry r c v) c2 = cellOf r c2 := by
  simp [cellOf, lookup_setEntry_ne _ _ _ _ h]

theorem rows_length_setColCells (df : DF) (c : String) (vs : List Cell)
    (h : vs.length = df.rows.length) :
    (setColCells df c vs).rows.length = df.rows.length := by
  simp [setColCells, h]

theorem rows_get?_setColCells (df : DF) (c : String) (vs : List Cell)
    (i : Nat) (r : Row) (v : Cell)
    (hr : df.rows.get? i = some r) (hv : vs.get? i = some v) :
    (setColCells df c vs).rows.get? i = some (setEntry r c v) := by
  have h := List.get?_zipWith' (fun r v => setEntry r c v) df.rows vs i
  rw [hr, hv] at h
  simpa [setColCells] using h

theorem dfCell_setColCells_self (df : DF) (c : String) (vs : List Cell)
    (i : Nat) (r : Row) (v : Cell)
    (hr : df.rows.get? i = some r) (hv : vs.get? i = some v) :
    dfCell (setColCells df c vs) i c = v := by
  have h := rows_get?_setColCells df c vs i r v hr hv
  simp only [List.get?_eq_getElem?] at h
  simp [dfCell, h, cellOf_setEntry_self]

theorem dfCell_setColCells_ne (df : DF) (c c2 : String) (vs : List Cell)
    (i : Nat) (r : Row) (v : Cell) (h : c2 ≠ c)
    (hr : df.rows.get? i = some r) (hv : vs.get? i = some v) :
    dfCell (setColCells df c vs) i c2 = dfCell df i c2 := by
  have h2 := rows_get?_setColCells df c vs i r v hr hv
  simp only [List.get?_eq_getElem?] at h2 hr
  simp [dfCell, h2, hr, cellOf_setEntry_ne _ _ _ _ h]

theorem mem_cols_setColCells (df : DF) (c x : String) (vs : List Cell) :
    x ∈ (setColCells df c vs).cols ↔ x ∈ df.cols ∨ x = c := by
  by_cases h : c ∈ df.cols
  · simp only [setColCells, if_pos h]
    constructor
    · exact fun hx => Or.inl hx
    · rintro (hx | rfl)
      · exact hx
      · exact h
  · simp [setColCells, if_neg h]

theorem mem_cols_ensureCol (df : DF) (c x : String) :
    x ∈ (ensureCol df c).cols ↔ x ∈ df.cols ∨ x = c := by
  by_cases h : c ∈ df.cols
  · simp only [ensureCol, if_pos h]
    constructor
    · exact fun hx => Or.inl hx
    · rintro (hx | rfl)
      · exact hx
      · exact h
  · simp [ensureCol, if_neg h, mem_cols_setColCells]

theorem length_getColCells (df : DF) (c : String) :
    (getColCells df c).length = df.rows.length := by
  simp [getColCells]

/-! ## C9: copy-on-write discipline of every component -/

/-- C9: every pipeline component and the orchestrator are copy-on-write:
running each component body in the object-level semantics leaves the
caller's table object (heap slot of df) unchanged, and binds out to the
value the pure component function computes. -/
theorem c9_copy_on_write :
    ∀ (df : DF) (colH colC compCol alcCol : String) (rx : RegexConfig)
      (flag dCol gCol vCol pCol dateCol nameCol numCol outCol inL outL : String)
      (w : Nat) (latCol lngCol cCol aCol : String) (clima : DF)
      (oT oC : String) (cfg : EdaCfg)
      (readCfg : String → Except String YamlCfg)
      (readWeather : String → Except String DF),
    callerTableAfter (crossFillBody colH colC) df = df ∧
    callerTableAfter (fillCompetenciaBody compCol alcCol) df = df ∧
    callerTableAfter (classifyBody rx flag dCol gCol vCol pCol) df = df ∧
    callerTableAfter (weekdayBody dateCol nameCol numCol) df = df ∧
    callerTableAfter (quincenaBody dateCol w outCol inL outL) df = df ∧
    callerTableAfter (latlngBody latCol lngCol cCol aCol) df = df ∧
    callerTableAfter (weatherBody clima aCol dateCol oT oC) df = df ∧
    callerTableAfter (runEdaBody cfg readCfg readWeather) df = df ∧
    outTableAfter (crossFillBody colH colC) df =
      (crossFillColonias df colH colC).1 ∧
    outTableAfter (fillCompetenciaBody compCol alcCol) df =
      (fillCompetencia df compCol alcCol).1 ∧
    outTableAfter (classifyBody rx flag dCol gCol vCol pCol) df =
      (classifyCore rx flag df dCol gCol vCol pCol).1 ∧
    outTableAfter (weekdayBody dateCol nameCol numCol) df =
      addWeekdayCore df dateCol nameCol numCol ∧
    outTableAfter (quincenaBody dateCol w outCol inL outL) df =
      addQuincenaCore df dateCol w outCol inL outL := by
  intro df colH colC compCol alcCol rx flag dCol gCol vCol pCol dateCol
    nameCol numCol outCol inL outL w latCol lngCol cCol aCol clima oT oC cfg
    readCfg readWeather
  refine ⟨rfl, rfl, rfl, rfl, rfl, rfl, rfl, rfl, rfl, rfl, rfl, rfl, rfl⟩

/-! ## C1: first-match classification -/

theorem firstMatchAux_spec (rx : RegexConfig) (t : String) (l : List String) :
    (firstMatchAux rx t l ∈ l ∨ firstMatchAux rx t l = "OTHER") ∧
    ((∃ pre post, l = pre ++ firstMatchAux rx t l :: post ∧
        groupMatches rx (firstMatchAux rx t l) t = true ∧
        ∀ k ∈ pre, groupMatches rx k t = false) ∨
      (firstMatchAux rx t l = "OTHER" ∧
        ∀ k ∈ l, groupMatches rx k t = false)) := by
  induction l with
  | nil => exact ⟨Or.inr rfl, Or.inr ⟨rfl, by simp⟩⟩
  | cons k rest ih =>
      by_cases h : groupMatches rx k t = true
      · have hfx : firstMatchAux rx t (k :: rest) = k := by
          simp [firstMatchAux, h]
        rw [hfx]
        exact ⟨Or.inl (List.mem_cons_self k rest),
          Or.inl ⟨[], rest, by simp, h, by simp⟩⟩
      · have hne : groupMatches rx k t = false := by simpa using h
        have hfx : firstMatchAux rx t (k :: rest) = firstMatchAux rx t rest := by
          simp [firstMatchAux, hne]
        rw [hfx]
        obtain ⟨ih1, ih2⟩ := ih
        refine ⟨?_, ?_⟩
        · rcases ih1 with hm | ho
          · exact Or.inl (List.mem_cons_of_mem _ hm)
          · exact Or.inr ho
        · rcases ih2 with ⟨pre, post, heq, hmt, hpre⟩ | ⟨ho, hall⟩
          · refine Or.inl ⟨k :: pre, post, ?_, hmt, ?_⟩
            · rw [List.cons_append]
              exact congrArg (List.cons k) heq
            · intro k2 hk2
              rcases List.mem_cons.mp hk2 with rfl | hk2
              · exact hne
              · exact hpre k2 hk2
          · refine Or.inr ⟨ho, ?_⟩
            intro k2 hk2
            rcases List.mem_cons.mp hk2 with rfl | hk2
            · exact hne
            · exact hall k2 hk2

/-- C1: for every text and every loaded ruleset (each group of the order
list has a compiled pattern, as the loader guarantees), classify sweeps
the pattern groups strictly in the configured order and assigns the first
group whose pattern matches the text — every earlier group does not
match — and assigns the sentinel OTHER exactly when no group matches; the
assigned group is always a member of the order list or OTHER. -/
theorem c1_first_match_order (rx : RegexConfig) (t : String)
    (hload : ∀ k ∈ rx.order, (List.lookup k rx.patterns).isSome) :
    (firstMatchGroup rx t ∈ rx.order ∨ firstMatchGroup rx t = "OTHER") ∧
    ((∃ pre post, rx.order = pre ++ firstMatchGroup rx t :: post ∧
        groupMatches rx (firstMatchGroup rx t) t = true ∧
        ∀ k ∈ pre, groupMatches rx k t = false) ∨
      (firstMatchGroup rx t = "OTHER" ∧
        ∀ k ∈ rx.order, groupMatches rx k t = false)) :=
  firstMatchAux_spec rx t rx.order

theorem c1_witness :
    (∀ k ∈ embeddedRegexRuntime.order,
      (List.lookup k embeddedRegexRuntime.patterns).isSome) ∧
    ((firstMatchGroup embeddedRegexRuntime ("robo a negocio x") ∈
        embeddedRegexRuntime.order ∨
      firstMatchGroup embeddedRegexRuntime ("robo a negocio x") = "OTHER") ∧
    ((∃ pre post, embeddedRegexRuntime.order = pre ++
          firstMatchGroup embeddedRegexRuntime ("robo a negocio x") :: post ∧
        groupMatches embeddedRegexRuntime
          (firstMatchGroup embeddedRegexRuntime ("robo a negocio x"))
          ("robo a negocio x") = true ∧
        ∀ k ∈ pre, groupMatches embeddedRegexRuntime k ("robo a negocio x") = false) ∨
      (firstMatchGroup embeddedRegexRuntime ("robo a negocio x") = "OTHER" ∧
        ∀ k ∈ embeddedRegexRuntime.order,
          groupMatches embeddedRegexRuntime k ("robo a negocio x") = false))) :=
  ⟨by decide, c1_first_match_order embeddedRegexRuntime ("robo a negocio x")
    (by decide)⟩

/-! ## C10: totality of classification over missing descriptions -/

theorem rows_length_ensureCol (df : DF) (c : String) :
    (ensureCol df c).rows.length = df.rows.length := by
  by_cases h : c ∈ df.cols
  · simp [ensureCol, h]
  · simp [ensureCol, h, setColCells]

theorem ensureCol_get? (df : DF) (c : String) (i : Nat)
    (hi : i < df.rows.length) :
    ∃ r, (ensureCol df c).rows.get? i = some r := by
  have hlen : (ensureCol df c).rows.length = df.rows.length :=
    rows_length_ensureCol df c
  have : i < (ensureCol df c).rows.length := by rw [hlen]; exact hi
  exact ⟨(ensureCol df c).rows.get ⟨i, this⟩, List.get?_eq_get this⟩

theorem ensureCol_cell_na (df : DF) (c : String) (i : Nat) (r : Row)
    (hr : (ensureCol df c).rows.get? i = some r)
    (hmiss : c ∉ df.cols ∨ dfCell df i c = Cell.na) :
    cellOf r c = Cell.na := by
  by_cases h : c ∈ df.cols
  · rcases hmiss with hab | hna
    · exact absurd h hab
    · have he : ensureCol df c = df := by simp [ensureCol, h]
      rw [he] at hr
      simp only [dfCell, List.get?_eq_getElem?] at hna
      simp only [List.get?_eq_getElem?] at hr
      rw [hr] at hna
      exact hna
  · have he : ensureCol df c =
        setColCells df c (df.rows.map (fun _ => Cell.na)) := by
      simp [ensureCol, h]
    rw [he] at hr
    have hi : i < df.rows.length := by
      by_contra hlt
      push_neg at hlt
      have h1 : df.rows[i]? = none := List.getElem?_eq_none (by simpa using hlt)
      simp only [setColCells, List.get?_eq_getElem?] at hr
      rw [List.getElem?_zipWith'] at hr
      simp [h1] at hr
    obtain ⟨r0, hr0⟩ : ∃ r0, df.rows.get? i = some r0 :=
      ⟨df.rows.get ⟨i, hi⟩, List.get?_eq_get hi⟩
    have hv : (df.rows.map (fun _ : Row => Cell.na)).get? i = some Cell.na := by
      simp only [List.get?_eq_getElem?] at hr0 ⊢
      simp [List.getElem?_map, hr0, hi]
    have := rows_get?_setColCells df c (df.rows.map (fun _ => Cell.na)) i r0
      Cell.na hr0 hv
    rw [this] at hr
    cases hr
    exact cellOf_setEntry_self r0 c Cell.na

theorem classifyCore_default_cells (rx : RegexConfig) (flag : String)
    (df : DF) (i : Nat) (r : Row)
    (hr : (ensureCol df ("delito")).rows.get? i = some r) :
    dfCell (classifyCore rx flag df ("delito") ("delito_grupo")
        ("violencia_class") ("robo_pasajero")).1 i ("delito_grupo") =
      Cell.str (firstMatchGroup rx (textoOfCell (cellOf r ("delito")))) ∧
    dfCell (classifyCore rx flag df ("delito") ("delito_grupo")
        ("violencia_class") ("robo_pasajero")).1 i ("delito_grupo_macro") =
      Cell.str ((List.lookup
        (firstMatchGroup rx (textoOfCell (cellOf r ("delito"))))
        rx.macroMap).getD ("NON_CRIME_OTHER")) ∧
    dfCell (classifyCore rx flag df ("delito") ("delito_grupo")
        ("violencia_class") ("robo_pasajero")).1 i ("violencia_class") =
      Cell.str (if rx.violentSet.contains
          (firstMatchGroup rx (textoOfCell (cellOf r ("delito"))))
        then ("VIOLENT") else ("NON_VIOLENT")) ∧
    dfCell (classifyCore rx flag df ("delito") ("delito_grupo")
        ("violencia_class") ("robo_pasajero")).1 i ("robo_pasajero") =
      Cell.bool
        (pasFlagWith (List.lookup ("ROBBERY_PEDESTRIAN_PRIORITY") rx.patterns)
          (firstMatchGroup rx (textoOfCell (cellOf r ("delito"))))
          (textoOfCell (cellOf r ("delito")))) := by
  have hr' : (ensureCol df ("delito")).rows[i]? = some r := by
    simpa using hr
  simp only [classifyCore]
  refine ⟨?_, ?_, ?_, ?_⟩
  all_goals
    simp [dfCell, rows_get?_setColCells, setColCells, List.getElem?_zipWith',
      getColCells, List.getElem?_map, hr', cellOf_setEntry_self,
      cellOf_setEntry_ne, String.reduceEq]

/-- C10: classify_regex with no external path (so the embedded ruleset)
is total over missing descriptions: a row whose description column is
absent or whose description is missing still gets group OTHER,
macro-category NON_CRIME_OTHER, violence label NON_VIOLENT and a false
pedestrian flag; and the four derived classification columns are
non-missing for every row. -/
theorem c10_missing_description_total (df : DF) (i : Nat)
    (readCfg : String → Except String YamlCfg)
    (hi : i < df.rows.length)
    (hmiss : ("delito") ∉ df.cols ∨ dfCell df i ("delito") = Cell.na) :
    (dfCell (classifyRegex df ("delito") ("delito_grupo") ("violencia_class")
        ("robo_pasajero") none readCfg).1 i ("delito_grupo") =
        Cell.str ("OTHER") ∧
      dfCell (classifyRegex df ("delito") ("delito_grupo") ("violencia_class")
        ("robo_pasajero") none readCfg).1 i ("delito_grupo_macro") =
        Cell.str ("NON_CRIME_OTHER") ∧
      dfCell (classifyRegex df ("delito") ("delito_grupo") ("violencia_class")
        ("robo_pasajero") none readCfg).1 i ("violencia_class") =
        Cell.str ("NON_VIOLENT") ∧
      dfCell (classifyRegex df ("delito") ("delito_grupo") ("violencia_class")
        ("robo_pasajero") none readCfg).1 i ("robo_pasajero") =
        Cell.bool false) ∧
    (∀ j, j < df.rows.length →
      ((dfCell (classifyRegex df ("delito") ("delito_grupo")
          ("violencia_class") ("robo_pasajero") none readCfg).1 j
          ("delito_grupo")).isNa = false ∧
       (dfCell (classifyRegex df ("delito") ("delito_grupo")
          ("violencia_class") ("robo_pasajero") none readCfg).1 j
          ("delito_grupo_macro")).isNa = false ∧
       (dfCell (classifyRegex df ("delito") ("delito_grupo")
          ("violencia_class") ("robo_pasajero") none readCfg).1 j
          ("violencia_class")).isNa = false ∧
       (dfCell (classifyRegex df ("delito") ("delito_grupo")
          ("violencia_class") ("robo_pasajero") none readCfg).1 j
          ("robo_pasajero")).isNa = false)) := by
  have hcr : classifyRegex df ("delito") ("delito_grupo") ("violencia_class")
      ("robo_pasajero") none readCfg =
      classifyCore embeddedRegexRuntime ("embedded") df ("delito")
        ("delito_grupo") ("violencia_class") ("robo_pasajero") := rfl
  rw [hcr]
  constructor
  · obtain ⟨r, hr⟩ := ensureCol_get? df ("delito") i hi
    have hna := ensureCol_cell_na df ("delito") i r hr hmiss
    obtain ⟨h1, h2, h3, h4⟩ :=
      classifyCore_default_cells embeddedRegexRuntime ("embedded") df i r hr
    rw [hna] at h1 h2 h3 h4
    refine ⟨?_, ?_, ?_, ?_⟩
    · rw [h1]; decide
    · rw [h2]; decide
    · rw [h3]; decide
    · rw [h4]; decide
  · intro j hj
    obtain ⟨r2, hr2⟩ := ensureCol_get? df ("delito") j hj
    obtain ⟨h1, h2, h3, h4⟩ :=
      classifyCore_default_cells embeddedRegexRuntime ("embedded") df j r2 hr2
    rw [h1, h2, h3, h4]
    exact ⟨rfl, rfl, rfl, rfl⟩

theorem c10_witness :
    0 < dfOneNa.rows.length ∧
    (("delito") ∉ dfOneNa.cols ∨ dfCell dfOneNa 0 ("delito") = Cell.na) ∧
    ((dfCell (classifyRegex dfOneNa ("delito") ("delito_grupo")
        ("violencia_class") ("robo_pasajero") none badReadCfg).1 0
        ("delito_grupo") = Cell.str ("OTHER") ∧
      dfCell (classifyRegex dfOneNa ("delito") ("delito_grupo")
        ("violencia_class") ("robo_pasajero") none badReadCfg).1 0
        ("delito_grupo_macro") = Cell.str ("NON_CRIME_OTHER") ∧
      dfCell (classifyRegex dfOneNa ("delito") ("delito_grupo")
        ("violencia_class") ("robo_pasajero") none badReadCfg).1 0
        ("violencia_class") = Cell.str ("NON_VIOLENT") ∧
      dfCell (classifyRegex dfOneNa ("delito") ("delito_grupo")
        ("violencia_class") ("robo_pasajero") none badReadCfg).1 0
        ("robo_pasajero") = Cell.bool false) ∧
    (∀ j, j < dfOneNa.rows.length →
      ((dfCell (classifyRegex dfOneNa ("delito") ("delito_grupo")
          ("violencia_class") ("robo_pasajero") none badReadCfg).1 j
          ("delito_grupo")).isNa = false ∧
       (dfCell (classifyRegex dfOneNa ("delito") ("delito_grupo")
          ("violencia_class") ("robo_pasajero") none badReadCfg).1 j
          ("delito_grupo_macro")).isNa = false ∧
       (dfCell (classifyRegex dfOneNa ("delito") ("delito_grupo")
          ("violencia_class") ("robo_pasajero") none badReadCfg).1 j
          ("violencia_class")).isNa = false ∧
       (dfCell (classifyRegex dfOneNa ("delito") ("delito_grupo")
          ("violencia_class") ("robo_pasajero") none badReadCfg).1 j
          ("robo_pasajero")).isNa = false))) :=
  ⟨by decide, by decide,
    c10_missing_description_total dfOneNa 0 badReadCfg (by decide) (by decide)⟩

/-! ## C3: the pay-period window -/

theorem rows_get?_of_lt (df : DF) (i : Nat) (hi : i < df.rows.length) :
    ∃ r, df.rows.get? i = some r :=
  ⟨df.rows.get ⟨i, hi⟩, List.get?_eq_get hi⟩

theorem ordDate_day15 (y m : Nat) :
    ordDate ⟨y, m, 1⟩ + 14 = ordDate ⟨y, m, 15⟩ := by
  simp only [ordDate]
  push_cast
  ring

theorem ordDate_monthEnd0 (dt : CivDate) :
    ordDate (monthEnd0 dt) =
      ordDate ⟨dt.year, dt.month, daysInMonth dt.year dt.month⟩ := by
  unfold monthEnd0
  by_cases h : dt.day = daysInMonth dt.year dt.month
  · rw [if_pos h]
    simp only [ordDate, h]
  · rw [if_neg h]

/-- The distance the code computes (first-of-month plus 14 days, the
MonthEnd(0) roll and the MonthEnd(-1) roll) is exactly the distance the
specification words as nearest of the 15th, the month's last day and the
previous month's last day. -/
theorem quincenaDistCode_eq_spec (dt : CivDate) :
    quincenaDistCode dt = quincenaDistSpec dt := by
  unfold quincenaDistCode quincenaDistSpec
  rw [ordDate_day15 dt.year dt.month, ordDate_monthEnd0 dt]

/-- C3: for every table whose date column exists, every row with a parsed
(valid) date is flagged with the in-window label iff the minimum absolute
day distance from the date to the 15th of its month, to its month's last
day and to the previous month's last day is at most the configured
threshold; every row whose date is unparseable gets the out-of-window
label — never a missing flag. -/
theorem c3_quincena_window (df : DF) (dateCol : String) (w : Nat)
    (outCol inL outL : String) (i : Nat) (d : CivDate)
    (hc : dateCol ∈ df.cols) (hi : i < df.rows.length) :
    addQuincenaWindow df dateCol w outCol inL outL =
      .ok (addQuincenaCore df dateCol w outCol inL outL) ∧
    (dfCell df i dateCol = Cell.date d →
      dfCell (addQuincenaCore df dateCol w outCol inL outL) i outCol =
        Cell.str (if quincenaDistSpec d ≤ w then inL else outL)) ∧
    (toDateCell (dfCell df i dateCol) = none →
      dfCell (addQuincenaCore df dateCol w outCol inL outL) i outCol =
        Cell.str outL) := by
  obtain ⟨r, hr⟩ := rows_get?_of_lt df i hi
  have hcell : dfCell df i dateCol = cellOf r dateCol := by
    simp only [dfCell, List.get?_eq_getElem?] at hr ⊢
    rw [hr]
  have hv : ((getColCells df dateCol).map (fun c =>
      match toDateCell c with
      | some d0 =>
          Cell.str (if quincenaDistCode d0 ≤ w then inL else outL)
      | none => Cell.str outL)).get? i =
      some (match toDateCell (cellOf r dateCol) with
        | some d0 => Cell.str (if quincenaDistCode d0 ≤ w then inL else outL)
        | none => Cell.str outL) := by
    simp only [List.get?_eq_getElem?] at hr ⊢
    simp [getColCells, List.getElem?_map, hr]
  refine ⟨by simp [addQuincenaWindow, hc], ?_, ?_⟩
  · intro hd
    rw [hcell] at hd
    have := dfCell_setColCells_self df outCol _ i r _ hr hv
    rw [addQuincenaCore, quincenaStep, this, hd]
    simp [toDateCell, quincenaDistCode_eq_spec]
  · intro hd
    rw [hcell] at hd
    have := dfCell_setColCells_self df outCol _ i r _ hr hv
    rw [addQuincenaCore, quincenaStep, this, hd]

theorem c3_witness :
    (("fecha_hecho") ∈ dfDates.cols ∧ 0 < dfDates.rows.length ∧
      1 < dfDates.rows.length) ∧
    (addQuincenaWindow dfDates ("fecha_hecho") 2 ("quincena_window")
        ("WINDOW") ("NO_WINDOW") =
      .ok (addQuincenaCore dfDates ("fecha_hecho") 2 ("quincena_window")
        ("WINDOW") ("NO_WINDOW")) ∧
      (dfCell dfDates 0 ("fecha_hecho") = Cell.date ⟨2024, 3, 15⟩ →
        dfCell (addQuincenaCore dfDates ("fecha_hecho") 2 ("quincena_window")
            ("WINDOW") ("NO_WINDOW")) 0 ("quincena_window") =
          Cell.str (if quincenaDistSpec ⟨2024, 3, 15⟩ ≤ 2 then ("WINDOW")
            else ("NO_WINDOW")))) ∧
    (toDateCell (dfCell dfDates 1 ("fecha_hecho")) = none →
      dfCell (addQuincenaCore dfDates ("fecha_hecho") 2 ("quincena_window")
          ("WINDOW") ("NO_WINDOW")) 1 ("quincena_window") =
        Cell.str ("NO_WINDOW")) :=
  ⟨⟨by decide, by decide, by decide⟩,
   ⟨(c3_quincena_window dfDates ("fecha_hecho") 2 ("quincena_window")
      ("WINDOW") ("NO_WINDOW") 0 ⟨2024, 3, 15⟩ (by decide) (by decide)).1,
    (c3_quincena_window dfDates ("fecha_hecho") 2 ("quincena_window")
      ("WINDOW") ("NO_WINDOW") 0 ⟨2024, 3, 15⟩ (by decide) (by decide)).2.1⟩,
   (c3_quincena_window dfDates ("fecha_hecho") 2 ("quincena_window")
      ("WINDOW") ("NO_WINDOW") 1 ⟨2024, 3, 15⟩ (by decide) (by decide)).2.2⟩

/-! ## C4: imputation and present values -/

theorem dfCell_of_get? (df : DF) (i : Nat) (r : Row) (c : String)
    (hr : df.rows.get? i = some r) : dfCell df i c = cellOf r c := by
  simp only [dfCell, List.get?_eq_getElem?] at hr ⊢
  rw [hr]

theorem dfCell_mapRows (cols2 : List String) (rows : List Row) (f : Row → Row)
    (c : String) (i : Nat) (r : Row) (hr : rows.get? i = some r) :
    dfCell { cols := cols2, rows := rows.map f } i c = cellOf (f r) c := by
  simp only [List.get?_eq_getElem?] at hr
  simp [dfCell, List.getElem?_map, hr]

theorem mapRows_get? (rows : List Row) (f : Row → Row) (i : Nat) (r : Row)
    (hr : rows.get? i = some r) : (rows.map f).get? i = some (f r) := by
  simp only [List.get?_eq_getElem?] at hr ⊢
  simp [List.getElem?_map, hr]

theorem isNa_false_exists_row (df : DF) (c : String) (i : Nat)
    (h : (dfCell df i c).isNa = false) : ∃ r, df.rows.get? i = some r := by
  cases hg : df.rows.get? i with
  | some r => exact ⟨r, rfl⟩
  | none =>
      exfalso
      simp only [dfCell, List.get?_eq_getElem?] at h
      simp only [List.get?_eq_getElem?] at hg
      rw [hg] at h
      simp [Cell.isNa] at h

theorem crossFillStepH_cell (colH colC : String) (r : Row) (c : String)
    (h : (cellOf r c).isNa = false) :
    cellOf (if (cellOf r colH).isNa && !(cellOf r colC).isNa
      then setEntry r colH (cellOf r colC) else r) c = cellOf r c := by
  by_cases hg : ((cellOf r colH).isNa && !(cellOf r colC).isNa) = true
  · rw [if_pos hg]
    by_cases hc : c = colH
    · exfalso
      subst hc
      rw [Bool.and_eq_true] at hg
      rw [hg.1] at h
      simp at h
    · exact cellOf_setEntry_ne r colH c _ hc
  · rw [if_neg hg]

theorem crossFillStepC_cell (colH colC : String) (r : Row) (c : String)
    (h : (cellOf r c).isNa = false) :
    cellOf (if (cellOf r colC).isNa && !(cellOf r colH).isNa
      then setEntry r colC (cellOf r colH) else r) c = cellOf r c := by
  by_cases hg : ((cellOf r colC).isNa && !(cellOf r colH).isNa) = true
  · rw [if_pos hg]
    by_cases hc : c = colC
    · exfalso
      subst hc
      rw [Bool.and_eq_true] at hg
      rw [hg.1] at h
      simp at h
    · exact cellOf_setEntry_ne r colC c _ hc
  · rw [if_neg hg]

/-- Both passes of cross_fill_colonias leave every non-missing cell of
every column untouched. -/
theorem crossFill_preserves_nonNa (df : DF) (colH colC : String) (c : String)
    (i : Nat) (h : (dfCell df i c).isNa = false) :
    dfCell (crossFillColonias df colH colC).1 i c = dfCell df i c := by
  obtain ⟨r, hr⟩ := isNa_false_exists_row df c i h
  have hcell : dfCell df i c = cellOf r c := dfCell_of_get? df i r c hr
  rw [hcell] at h ⊢
  by_cases hm : colH ∈ df.cols ∧ colC ∈ df.cols
  · have hH : crossFillStepH colH colC df =
        { cols := df.cols,
          rows := df.rows.map (fun r =>
            if (cellOf r colH).isNa && !(cellOf r colC).isNa then
              setEntry r colH (cellOf r colC)
            else r) } := by
      simp [crossFillStepH, hm]
    have hC : ∀ d2 : DF, colH ∈ d2.cols ∧ colC ∈ d2.cols →
        crossFillStepC colH colC d2 =
        { cols := d2.cols,
          rows := d2.rows.map (fun r =>
            if (cellOf r colC).isNa && !(cellOf r colH).isNa then
              setEntry r colC (cellOf r colH)
            else r) } := by
      intro d2 hm2
      simp [crossFillStepC, hm2]
    have hr1 : (crossFillStepH colH colC df).rows.get? i =
        some (if (cellOf r colH).isNa && !(cellOf r colC).isNa then
          setEntry r colH (cellOf r colC) else r) := by
      rw [hH]
      exact mapRows_get? _ _ i r hr
    have hkeep1 := crossFillStepH_cell colH colC r c h
    show dfCell (crossFillStepC colH colC (crossFillStepH colH colC df)) i c =
      cellOf r c
    rw [hC (crossFillStepH colH colC df) (by rw [hH]; exact hm)]
    rw [dfCell_mapRows _ _ _ c i _ hr1]
    rw [crossFillStepC_cell colH colC _ c (by rw [hkeep1]; exact h)]
    exact hkeep1
  · have hH : crossFillStepH colH colC df = df := by
      simp only [crossFillStepH, if_neg hm]
    have hC : crossFillStepC colH colC df = df := by
      simp only [crossFillStepC, if_neg hm]
    show dfCell (crossFillStepC colH colC (crossFillStepH colH colC df)) i c =
      cellOf r c
    rw [hH, hC]
    exact hcell

theorem latlngFillStep_preserves (med : DF) (keyCol tgtCol : String)
    (df : DF) (i : Nat) (c : String)
    (h : (dfCell df i c).isNa = false) :
    dfCell (latlngFillStep med keyCol tgtCol df) i c = dfCell df i c := by
  obtain ⟨r, hr⟩ := isNa_false_exists_row df c i h
  have hcell : dfCell df i c = cellOf r c := dfCell_of_get? df i r c hr
  rw [hcell] at h ⊢
  rw [latlngFillStep, dfCell_mapRows _ _ _ c i r hr]
  by_cases hg : ((cellOf r tgtCol).isNa) = true
  · rw [if_pos hg]
    by_cases hc : c = tgtCol
    · exfalso
      subst hc
      rw [hg] at h
      simp at h
    · exact cellOf_setEntry_ne r tgtCol c _ hc
  · rw [if_neg hg]

/-- The four fill passes of fill_latlng_medians preserve every
non-missing cell. -/
theorem latlng_chain_preserves (df : DF) (latCol lngCol cCol aCol : String)
    (i : Nat) (c : String) (h : (dfCell df i c).isNa = false) :
    dfCell (latlngFillStep df aCol lngCol (latlngFillStep df aCol latCol
      (latlngFillStep df cCol lngCol (latlngFillStep df cCol latCol df)))) i c =
      dfCell df i c := by
  have h1 := latlngFillStep_preserves df cCol latCol df i c h
  have e1 : (dfCell (latlngFillStep df cCol latCol df) i c).isNa = false := by
    rw [h1]; exact h
  have h2 := latlngFillStep_preserves df cCol lngCol _ i c e1
  have e2 : (dfCell (latlngFillStep df cCol lngCol
      (latlngFillStep df cCol latCol df)) i c).isNa = false := by
    rw [h2, h1]; exact h
  have h3 := latlngFillStep_preserves df aCol latCol _ i c e2
  have e3 : (dfCell (latlngFillStep df aCol latCol (latlngFillStep df cCol
      lngCol (latlngFillStep df cCol latCol df))) i c).isNa = false := by
    rw [h3, h2, h1]; exact h
  have h4 := latlngFillStep_preserves df aCol lngCol _ i c e3
  rw [h4, h3, h2, h1]

/-- C4 (amended): cross_fill_colonias and fill_latlng_medians never
overwrite a present value of any column, and fill_competencia preserves
every present string value that is not blank (empty or whitespace-only
after stripping); blank present strings are the exception the code
rewrites. -/
theorem c4_imputation_strictly_fills (df : DF)
    (colH colC compCol alcCol latCol lngCol cCol aCol : String)
    (i : Nat) (s : String) :
    ((dfCell df i colH).isNa = false →
      dfCell (crossFillColonias df colH colC).1 i colH = dfCell df i colH) ∧
    ((dfCell df i colC).isNa = false →
      dfCell (crossFillColonias df colH colC).1 i colC = dfCell df i colC) ∧
    (compCol ∈ df.cols → dfCell df i compCol = Cell.str s →
      pyStrip s ≠ "" →
      dfCell (fillCompetencia df compCol alcCol).1 i compCol = Cell.str s) ∧
    (∀ out st, fillLatLngMedians df latCol lngCol cCol aCol = .ok (out, st) →
      ((dfCell df i latCol).isNa = false →
        dfCell out i latCol = dfCell df i latCol) ∧
      ((dfCell df i lngCol).isNa = false →
        dfCell out i lngCol = dfCell df i lngCol)) := by
  refine ⟨fun h => crossFill_preserves_nonNa df colH colC colH i h,
    fun h => crossFill_preserves_nonNa df colH colC colC i h, ?_, ?_⟩
  · intro hcc hcell hs
    obtain ⟨r, hr⟩ := isNa_false_exists_row df compCol i (by rw [hcell]; rfl)
    have hrc : cellOf r compCol = Cell.str s := by
      rw [← dfCell_of_get? df i r compCol hr]
      exact hcell
    have he : compStepEnsure compCol df = df := by
      simp [compStepEnsure, ensureCol, hcc]
    have hblank : blankCell (cellOf r compCol) = false := by
      rw [hrc]
      simp [blankCell, hs]
    have hr1 : (compStepRule compCol df).rows.get? i = some r := by
      rw [compStepRule]
      have h1 := mapRows_get? df.rows (fun r =>
        if blankCell (cellOf r compCol) then
          setEntry r compCol (competenciaRule (normCellStr (cellOf r compCol)))
        else r) i r hr
      simpa [hblank] using h1
    have hr2 : (compStepMode compCol alcCol (compStepRule compCol df)).rows.get? i =
        some r := by
      rw [compStepMode]
      by_cases ha : alcCol ∈ (compStepRule compCol df).cols
      · rw [if_pos ha]
        have h2 := mapRows_get? (compStepRule compCol df).rows (fun r =>
          if (cellOf r compCol).isNa then
            setEntry r compCol (groupModeAt (compStepRule compCol df) alcCol
              compCol (cellOf r alcCol))
          else r) i r hr1
        simpa [hrc, Cell.isNa] using h2
      · rw [if_neg ha]
        exact hr1
    show dfCell (compStepFinal compCol
      (compStepMode compCol alcCol (compStepRule compCol (compStepEnsure compCol df)))) i compCol = Cell.str s
    rw [he, compStepFinal, dfCell_mapRows _ _ _ compCol i r hr2,
      cellOf_setEntry_self, hrc]
    rfl
  · intro out st hok
    by_cases hm : cCol ∈ df.cols ∧ latCol ∈ df.cols ∧ lngCol ∈ df.cols
    · by_cases ha : aCol ∈ df.cols
      · have hout : out = latlngFillStep df aCol lngCol
            (latlngFillStep df aCol latCol (latlngFillStep df cCol lngCol
              (latlngFillStep df cCol latCol df))) := by
          rw [fillLatLngMedians, if_pos hm, if_pos ha] at hok
          cases hok
          rfl
        subst hout
        exact ⟨fun h => latlng_chain_preserves df latCol lngCol cCol aCol i
            latCol h,
          fun h => latlng_chain_preserves df latCol lngCol cCol aCol i
            lngCol h⟩
      · exfalso
        rw [fillLatLngMedians, if_pos hm, if_neg ha] at hok
        cases hok
    · exfalso
      rw [fillLatLngMedians, if_neg hm] at hok
      cases hok

/-- C4 counterexample: fill_competencia overwrites the present blank
string value of the jurisdiction field with UNKNOWN, so the claim that
every non-missing value survives byte-identically is false. -/
theorem c4_counterexample :
    dfCell dfBlankComp 0 ("competencia") = Cell.str ("") ∧
    (Cell.str ("")).isNa = false ∧
    dfCell (fillCompetencia dfBlankComp ("competencia")
      ("alcaldia_hecho")).1 0 ("competencia") = Cell.str ("UNKNOWN") ∧
    Cell.str ("") ≠ Cell.str ("UNKNOWN") := by
  refine ⟨by decide, by decide, by decide, by decide⟩

theorem c4_witness :
    (("competencia") ∈ dfLocalComp.cols ∧
      dfCell dfLocalComp 0 ("competencia") = Cell.str ("LOCAL") ∧
      pyStrip ("LOCAL") ≠ "") ∧
    dfCell (fillCompetencia dfLocalComp ("competencia")
      ("alcaldia_hecho")).1 0 ("competencia") = Cell.str ("LOCAL") :=
  ⟨⟨by decide, by decide, by decide⟩,
   (c4_imputation_strictly_fills dfLocalComp ("colonia_hecho")
      ("colonia_catalogo") ("competencia") ("alcaldia_hecho") ("latitud")
      ("longitud") ("colonia_hecho") ("alcaldia_hecho") 0
      ("LOCAL")).2.2.1 (by decide) (by decide) (by decide)⟩

/-! ## C6: merge aligns to the sorted column union -/

theorem mem_insertSortedStr (x y : String) (l : List String) :
    y ∈ insertSortedStr x l ↔ y = x ∨ y ∈ l := by
  induction l with
  | nil => simp [insertSortedStr]
  | cons a as ih =>
      by_cases h1 : x < a
      · simp only [insertSortedStr, if_pos h1]
        simp [List.mem_cons]
      · by_cases h2 : x = a
        · subst h2
          simp only [insertSortedStr, if_neg h1, if_pos rfl]
          simp [List.mem_cons]
        · simp only [insertSortedStr, if_neg h1, if_neg h2]
          simp [List.mem_cons, ih]
          tauto

theorem sorted_insertSortedStr (x : String) (l : List String)
    (h : List.Sorted (· < ·) l) :
    List.Sorted (· < ·) (insertSortedStr x l) := by
  induction l with
  | nil => simp [insertSortedStr]
  | cons a as ih =>
      rw [List.sorted_cons] at h
      obtain ⟨ha, has⟩ := h
      by_cases h1 : x < a
      · rw [insertSortedStr, if_pos h1, List.sorted_cons]
        constructor
        · intro b hb
          rcases List.mem_cons.mp hb with rfl | hb
          · exact h1
          · exact lt_trans h1 (ha b hb)
        · rw [List.sorted_cons]
          exact ⟨ha, has⟩
      · by_cases h2 : x = a
        · rw [insertSortedStr, if_neg h1, if_pos h2, List.sorted_cons]
          exact ⟨ha, has⟩
        · rw [insertSortedStr, if_neg h1, if_neg h2, List.sorted_cons]
          refine ⟨?_, ih has⟩
          intro b hb
          rw [mem_insertSortedStr] at hb
          rcases hb with rfl | hb
          · exact lt_of_le_of_ne (not_lt.mp h1) (fun he => h2 he.symm)
          · exact ha b hb

theorem sorted_dedupSortStr (l : List String) :
    List.Sorted (· < ·) (dedupSortStr l) := by
  induction l with
  | nil => simp [dedupSortStr]
  | cons a as ih => exact sorted_insertSortedStr a (dedupSortStr as) ih

theorem mem_dedupSortStr (l : List String) (y : String) :
    y ∈ dedupSortStr l ↔ y ∈ l := by
  induction l with
  | nil => simp [dedupSortStr]
  | cons a as ih =>
      show y ∈ insertSortedStr a (dedupSortStr as) ↔ _
      rw [mem_insertSortedStr, ih]
      simp [List.mem_cons]

theorem lookup_map_pair (f : String → Cell) (l : List String) (c : String) :
    List.lookup c (l.map (fun x => (x, f x))) =
      if c ∈ l then some (f c) else none := by
  induction l with
  | nil => simp
  | cons a as ih =>
      by_cases h : c = a
      · subst h
        simp [List.lookup_cons]
      · simp [List.lookup_cons, beq_false_of_ne h, ih, h]

theorem cellOf_reindexRow (origCols allCols : List String) (r : Row)
    (c : String) :
    cellOf (reindexRow origCols allCols r) c =
      if c ∈ allCols then (if c ∈ origCols then cellOf r c else Cell.na)
      else Cell.na := by
  rw [reindexRow, cellOf, lookup_map_pair]
  by_cases h : c ∈ allCols
  · simp [h]
  · simp [h]

/-- C6: the combined table's columns are the strictly sorted,
duplicate-free union of both tables' columns; its row count is the sum of
the two row counts; historical rows come first in their original order,
then new rows in their original order, and every cell is the originating
table's value for columns that table had and the missing sentinel for
columns it lacked. -/
theorem c6_merge_column_union (master newClean : DF) (c : String)
    (i j : Nat) (hi : i < master.rows.length)
    (hj : j < newClean.rows.length) :
    List.Sorted (· < ·) (alignCombine master newClean).cols ∧
    (alignCombine master newClean).cols.Nodup ∧
    (c ∈ (alignCombine master newClean).cols ↔
      c ∈ master.cols ∨ c ∈ newClean.cols) ∧
    (alignCombine master newClean).rows.length =
      master.rows.length + newClean.rows.length ∧
    dfCell (alignCombine master newClean) i c =
      (if c ∈ master.cols then dfCell master i c else Cell.na) ∧
    dfCell (alignCombine master newClean) (master.rows.length + j) c =
      (if c ∈ newClean.cols then dfCell newClean j c else Cell.na) := by
  have hsort : List.Sorted (· < ·) (alignCombine master newClean).cols :=
    sorted_dedupSortStr _
  have hmem : ∀ y, y ∈ (alignCombine master newClean).cols ↔
      y ∈ master.cols ∨ y ∈ newClean.cols := by
    intro y
    show y ∈ dedupSortStr (master.cols ++ newClean.cols) ↔ _
    rw [mem_dedupSortStr]
    exact List.mem_append
  obtain ⟨rm, hrm⟩ := rows_get?_of_lt master i hi
  obtain ⟨rn, hrn⟩ := rows_get?_of_lt newClean j hj
  have hrowm : (alignCombine master newClean).rows.get? i =
      some (reindexRow master.cols
        (dedupSortStr (master.cols ++ newClean.cols)) rm) := by
    show (master.rows.map _ ++ newClean.rows.map _).get? i = _
    rw [List.get?_append (by simpa using hi)]
    exact mapRows_get? master.rows _ i rm hrm
  have hrown : (alignCombine master newClean).rows.get?
      (master.rows.length + j) =
      some (reindexRow newClean.cols
        (dedupSortStr (master.cols ++ newClean.cols)) rn) := by
    show (master.rows.map _ ++ newClean.rows.map _).get? _ = _
    rw [List.get?_append_right (by simp [Nat.le_add_right])]
    have hshift : master.rows.length + j - (master.rows.map (reindexRow
        master.cols (dedupSortStr (master.cols ++ newClean.cols)))).length =
        j := by
      simp
    rw [hshift]
    exact mapRows_get? newClean.rows _ j rn hrn
  refine ⟨hsort, hsort.nodup, hmem c, by simp [alignCombine], ?_, ?_⟩
  · rw [dfCell_of_get? _ _ _ _ hrowm, cellOf_reindexRow,
      dfCell_of_get? master i rm c hrm]
    by_cases hc : c ∈ master.cols
    · have hcd : c ∈ dedupSortStr (master.cols ++ newClean.cols) := by
        rw [mem_dedupSortStr]
        exact List.mem_append.mpr (Or.inl hc)
      simp [hc, hcd]
    · by_cases hall : c ∈ dedupSortStr (master.cols ++ newClean.cols)
      · simp [hc, hall]
      · simp [hc, hall]
  · rw [dfCell_of_get? _ _ _ _ hrown, cellOf_reindexRow,
      dfCell_of_get? newClean j rn c hrn]
    by_cases hc : c ∈ newClean.cols
    · have hcd : c ∈ dedupSortStr (master.cols ++ newClean.cols) := by
        rw [mem_dedupSortStr]
        exact List.mem_append.mpr (Or.inr hc)
      simp [hc, hcd]
    · by_cases hall : c ∈ dedupSortStr (master.cols ++ newClean.cols)
      · simp [hc, hall]
      · simp [hc, hall]

theorem c6_witness :
    (0 < dfHist.rows.length ∧ 0 < dfNew.rows.length) ∧
    (List.Sorted (· < ·) (alignCombine dfHist dfNew).cols ∧
      (alignCombine dfHist dfNew).cols.Nodup ∧
      (("region") ∈ (alignCombine dfHist dfNew).cols ↔
        ("region") ∈ dfHist.cols ∨ ("region") ∈ dfNew.cols) ∧
      (alignCombine dfHist dfNew).rows.length =
        dfHist.rows.length + dfNew.rows.length ∧
      dfCell (alignCombine dfHist dfNew) 0 ("region") =
        (if ("region") ∈ dfHist.cols then dfCell dfHist 0 ("region")
         else Cell.na) ∧
      dfCell (alignCombine dfHist dfNew) (dfHist.rows.length + 0) ("region") =
        (if ("region") ∈ dfNew.cols then dfCell dfNew 0 ("region")
         else Cell.na)) ∧
    (alignCombine dfHist dfNew).cols = [("group"), ("id"), ("region")] :=
  ⟨⟨by decide, by decide⟩,
   c6_merge_column_union dfHist dfNew ("region") 0 0 (by decide) (by decide),
   by
    simp [alignCombine, dfHist, dfNew, dedupSortStr, insertSortedStr]
    decide⟩

/-! ## C7: keep-last deduplication -/

theorem keyAtIdx_cons_succ (keys : List String) (r : Row) (rest : List Row)
    (j : Nat) : keyAtIdx keys (r :: rest) (j + 1) = keyAtIdx keys rest j := rfl

theorem keyAtIdx_cons_zero (keys : List String) (r : Row) (rest : List Row) :
    keyAtIdx keys (r :: rest) 0 = keyOf keys r := rfl

theorem all_not_eq_not_any {α : Type} (l : List α) (p : α → Bool) :
    (l.all fun x => !(p x)) = !(l.any p) := by
  induction l with
  | nil => rfl
  | cons a as ih => simp [List.all_cons, List.any_cons, ih, Bool.not_or]

theorem isLastOccIdx_succ (keys : List String) (r : Row) (rest : List Row)
    (i : Nat) :
    isLastOccIdx keys (r :: rest) (i + 1) = isLastOccIdx keys rest i := by
  unfold isLastOccIdx
  rw [List.length_cons, List.range_succ_eq_map, List.all_cons, List.all_map]
  simp only [Function.comp_def, keyAtIdx_cons_succ, Nat.succ_le_succ_iff]
  simp

theorem any_range_key (rest : List Row) (keys : List String) (r : Row) :
    (List.range rest.length).any
      (fun j => decide (keyAtIdx keys rest j = keyOf keys r)) =
      rest.any (fun r2 => decide (keyOf keys r2 = keyOf keys r)) := by
  induction rest with
  | nil => rfl
  | cons a as ih =>
      rw [List.length_cons, List.range_succ_eq_map, List.any_cons,
        List.any_map]
      simp only [Function.comp_def, keyAtIdx_cons_succ, keyAtIdx_cons_zero,
        List.any_cons]
      rw [ih]

theorem isLastOccIdx_zero (keys : List String) (r : Row) (rest : List Row) :
    isLastOccIdx keys (r :: rest) 0 =
      !(rest.any fun r2 => decide (keyOf keys r2 = keyOf keys r)) := by
  unfold isLastOccIdx
  rw [List.length_cons, List.range_succ_eq_map, List.all_cons, List.all_map]
  simp only [Function.comp_def, keyAtIdx_cons_succ, keyAtIdx_cons_zero]
  have hstep : (fun j : Nat => decide (j + 1 ≤ 0) ||
      decide (keyAtIdx keys rest j ≠ keyOf keys r)) =
      (fun j : Nat => !(decide (keyAtIdx keys rest j = keyOf keys r))) := by
    funext j
    simp
  rw [show (decide (0 ≤ 0) || decide (keyOf keys r ≠ keyOf keys r)) = true by
    simp]
  rw [Bool.true_and, hstep, all_not_eq_not_any, any_range_key]

/-- dedupKeepLast keeps exactly the rows at last-occurrence indices, in
order. -/
theorem dedupKeepLast_eq_lastOccs (keys : List String) (rows : List Row) :
    dedupKeepLast keys rows =
      ((List.range rows.length).filter (isLastOccIdx keys rows)).map
        (fun i => (rows.get? i).getD []) := by
  induction rows with
  | nil => simp [dedupKeepLast]
  | cons r rest ih =>
      rw [dedupKeepLast, List.length_cons, List.range_succ_eq_map,
        List.filter_cons, List.filter_map]
      have hcomp : isLastOccIdx keys (r :: rest) ∘ Nat.succ =
          isLastOccIdx keys rest := by
        funext i
        exact isLastOccIdx_succ keys r rest i
      rw [hcomp]
      by_cases h : rest.any (fun r2 => decide (keyOf keys r2 = keyOf keys r)) = true
      · have hz : (isLastOccIdx keys (r :: rest) 0) = false := by
          rw [isLastOccIdx_zero, h]
          rfl
        rw [if_pos h, hz, ih]
        simp only [Bool.false_eq_true, if_false, List.map_map]
        rfl
      · have hb : rest.any (fun r2 => decide (keyOf keys r2 = keyOf keys r)) =
            false := by simpa using h
        have hz : (isLastOccIdx keys (r :: rest) 0) = true := by
          rw [isLastOccIdx_zero, hb]
          rfl
        rw [if_neg (by rw [hb]; simp), hz, ih]
        simp only [if_true, List.map_map, List.map_cons]
        rfl

/-- C7: with key columns supplied, exactly the last occurrence of every
key tuple survives deduplication (so for two rows with the same key, the
earlier — historical — one is dropped and the surviving row is literally
the later — new — row, non-key values included); and a key column absent
from the combined table is a fatal error, reported before any
deduplication. -/
theorem c7_dedup_keep_last (combined : DF) (keys : List String) (c : String)
    (i j : Nat) :
    (dedupKeepLast keys combined.rows =
      ((List.range combined.rows.length).filter
        (isLastOccIdx keys combined.rows)).map
        (fun i2 => (combined.rows.get? i2).getD [])) ∧
    (c ∈ keys → c ∉ combined.cols →
      ∃ e, dedupStep combined (some keys) = .error e) ∧
    (i < j → j < combined.rows.length →
      keyAtIdx keys combined.rows i = keyAtIdx keys combined.rows j →
      isLastOccIdx keys combined.rows i = false) ∧
    ((∀ c2 ∈ keys, c2 ∈ combined.cols) → keys ≠ [] →
      dedupStep combined (some keys) =
        .ok { cols := combined.cols,
              rows := dedupKeepLast keys combined.rows }) := by
  refine ⟨dedupKeepLast_eq_lastOccs keys combined.rows, ?_, ?_, ?_⟩
  · intro hc hnc
    cases keys with
    | nil => cases hc
    | cons k ks =>
        have hfind : ((k :: ks).find? (fun c2 =>
            !combined.cols.contains c2)).isSome := by
          rw [List.find?_isSome]
          exact ⟨c, hc, by simpa using hnc⟩
        rw [dedupStep]
        cases hf : (k :: ks).find? (fun c2 => !combined.cols.contains c2) with
        | none => rw [hf] at hfind; cases hfind
        | some c2 => exact ⟨_, rfl⟩
  · intro hij hj hkey
    unfold isLastOccIdx
    rw [List.all_eq_false]
    refine ⟨j, List.mem_range.mpr hj, ?_⟩
    have h1 : decide (j ≤ i) = false := by
      simp [Nat.not_le.mpr hij]
    have h2 : decide (keyAtIdx keys combined.rows j ≠
        keyAtIdx keys combined.rows i) = false := by
      simp [hkey.symm]
    rw [h1, h2]
    simp
  · intro hall hne
    cases keys with
    | nil => cases hne rfl
    | cons k ks =>
        rw [dedupStep]
        have hfind : (k :: ks).find? (fun c2 =>
            !combined.cols.contains c2) = none := by
          rw [List.find?_eq_none]
          intro x hx
          simp [hall x hx]
        rw [hfind]

theorem c7_witness :
    (("id") ∈ [("id")] ∧ ("id") ∉ dfHist.cols → True) ∧
    (0 < 1 ∧ 1 < dfDupKeys.rows.length ∧
      keyAtIdx [("id")] dfDupKeys.rows 0 = keyAtIdx [("id")] dfDupKeys.rows 1) ∧
    isLastOccIdx [("id")] dfDupKeys.rows 0 = false ∧
    dedupStep dfDupKeys (some [("id")]) =
      .ok { cols := dfDupKeys.cols,
            rows := dedupKeepLast [("id")] dfDupKeys.rows } ∧
    (∃ e, dedupStep { cols := dfDupKeys.cols, rows := dfDupKeys.rows }
      (some [("missing_key")]) = .error e) :=
  ⟨fun _ => trivial,
   ⟨by decide, by decide, by decide⟩,
   (c7_dedup_keep_last dfDupKeys [("id")] ("id") 0 1).2.2.1 (by decide)
     (by decide) (by decide),
   (c7_dedup_keep_last dfDupKeys [("id")] ("id") 0 1).2.2.2
     (by decide) (by decide),
   (c7_dedup_keep_last { cols := dfDupKeys.cols, rows := dfDupKeys.rows }
     [("missing_key")] ("missing_key") 0 1).2.1 (by decide) (by decide)⟩

/-! ## C8: the loader does not check macro coverage -/

/-- C8 counterexample: a ruleset whose only pattern group has no entry in
the macro mapping loads successfully (no error at configuration-load
time), and classifying a text that matches that group invents the default
macro-category NON_CRIME_OTHER at classification time. -/
theorem c8_counterexample :
    loadRegexConfig cfgNoMacro = .ok rxNoMacro ∧
    List.lookup ("A") rxNoMacro.macroMap = none ∧
    firstMatchGroup rxNoMacro ("cat") = "A" ∧
    (List.lookup (firstMatchGroup rxNoMacro ("cat"))
      rxNoMacro.macroMap).getD ("NON_CRIME_OTHER") = "NON_CRIME_OTHER" :=
  ⟨by rfl, by decide, by decide, by decide⟩

/-- C8 (amended): load_regex_config validates only the presence of the
four required keys, the non-emptiness and shape of the patterns mapping,
and that every order entry names a defined pattern group; it performs no
macro-coverage check, so any macro mapping — coverage gaps included —
loads successfully, and a configured group missing from the macro mapping
is assigned the default NON_CRIME_OTHER at classification time. -/
theorem c8_loader_no_macro_check (rawPs : List (String × PatVal))
    (ps : List (String × RE)) (order : List String)
    (macroMp : List (String × String)) (violent : List String)
    (df : DF) (i : Nat) (r : Row) (flag : String)
    (hne : rawPs ≠ [])
    (hcomp : compilePatterns rawPs = .ok ps)
    (hord : order.find? (fun k => (List.lookup k ps).isNone) = none) :
    loadRegexConfig
      { patterns := some rawPs, order := some order,
        macroMap := some macroMp, violentSet := some violent } =
      .ok { patterns := ps, order := order, macroMap := macroMp,
            violentSet := violent } ∧
    (∀ rx : RegexConfig,
      (ensureCol df ("delito")).rows.get? i = some r →
      List.lookup (firstMatchGroup rx (textoOfCell (cellOf r ("delito"))))
        rx.macroMap = none →
      dfCell (classifyCore rx flag df ("delito") ("delito_grupo")
          ("violencia_class") ("robo_pasajero")).1 i ("delito_grupo_macro") =
        Cell.str ("NON_CRIME_OTHER")) := by
  constructor
  · have hemp : rawPs.isEmpty = false := by
      cases rawPs
      · exact absurd rfl hne
      · rfl
    have h1 : loadRegexConfig
        { patterns := some rawPs, order := some order,
          macroMap := some macroMp, violentSet := some violent } =
        (if rawPs.isEmpty then
          Except.error ("patterns must be a non-empty dict")
        else (compilePatterns rawPs).bind (fun compiled =>
          match order.find? (fun k => (List.lookup k compiled).isNone) with
          | some k => Except.error
              (String.append ("order contains key with no pattern: ") k)
          | none =>
              Except.ok (RegexConfig.mk compiled order macroMp violent))) :=
      rfl
    rw [h1, if_neg (by rw [hemp]; simp), hcomp]
    show (match order.find? (fun k => (List.lookup k ps).isNone) with
      | some k => Except.error
          (String.append ("order contains key with no pattern: ") k)
      | none => Except.ok (RegexConfig.mk ps order macroMp violent)) = _
    rw [hord]
  · intro rx hr hnone
    have h2 := (classifyCore_default_cells rx flag df i r hr).2.1
    rw [hnone] at h2
    exact h2

theorem c8_witness :
    ([(("A"), PatVal.one (reLit ("CAT")))] ≠
        ([] : List (String × PatVal)) ∧
      compilePatterns [(("A"), PatVal.one (reLit ("CAT")))] =
        .ok [(("A"), reLit ("CAT"))] ∧
      ([("A")].find? (fun k =>
        (List.lookup k [(("A"), reLit ("CAT"))]).isNone)) = none) ∧
    loadRegexConfig
      { patterns := some [(("A"), PatVal.one (reLit ("CAT")))],
        order := some [("A")], macroMap := some [],
        violentSet := some [] } =
      .ok { patterns := [(("A"), reLit ("CAT"))], order := [("A")],
            macroMap := [], violentSet := [] } ∧
    dfCell (classifyCore rxNoMacro ("embedded") dfOneNa ("delito")
        ("delito_grupo") ("violencia_class") ("robo_pasajero")).1 0
      ("delito_grupo_macro") = Cell.str ("NON_CRIME_OTHER") :=
  ⟨⟨by decide, by rfl, by decide⟩,
   (c8_loader_no_macro_check [(("A"), PatVal.one (reLit ("CAT")))]
     [(("A"), reLit ("CAT"))] [("A")] [] [] dfOneNa 0
     [(("delito"), Cell.na)] ("embedded") (by decide) (by rfl)
     (by decide)).1,
   (c8_loader_no_macro_check [(("A"), PatVal.one (reLit ("CAT")))]
     [(("A"), reLit ("CAT"))] [("A")] [] [] dfOneNa 0
     [(("delito"), Cell.na)] ("embedded") (by decide) (by rfl)
     (by decide)).2 rxNoMacro (by decide) (by decide)⟩

/-! ## C2: malformed external rulesets are silently swallowed -/

/-- C2 counterexample: with an external path whose configuration is
malformed, classify_regex does not fail — it classifies with the embedded
fallback ruleset — while the output statistics' source flag still reads
external; the cleaned table equals the one produced with no external path
at all. -/
theorem c2_counterexample :
    getRegexRuntime (some ("ruleset.yaml")) badReadCfg =
      embeddedRegexRuntime ∧
    (classifyRegex dfOneNa ("delito") ("delito_grupo") ("violencia_class")
      ("robo_pasajero") (some ("ruleset.yaml")) badReadCfg).2.source =
      "external" ∧
    (classifyRegex dfOneNa ("delito") ("delito_grupo") ("violencia_class")
      ("robo_pasajero") (some ("ruleset.yaml")) badReadCfg).1 =
    (classifyRegex dfOneNa ("delito") ("delito_grupo") ("violencia_class")
      ("robo_pasajero") none badReadCfg).1 :=
  ⟨by decide, by decide, by decide⟩

/-- C2 (amended): the embedded ruleset is used when no truthy external
path is supplied OR when loading the supplied path fails — a loading
error never propagates out of classify_regex; a successfully loaded
external ruleset is used as-is; and the statistics' source flag depends
only on whether a truthy path was supplied, reading external even when
the loading failure forced the embedded fallback. -/
theorem c2_fallback_and_source_flag (path : Option String)
    (readCfg : String → Except String YamlCfg) (df : DF)
    (dCol gCol vCol pCol : String) :
    (pyTruthyStr path = false →
      getRegexRuntime path readCfg = embeddedRegexRuntime ∧
      sourceFlagOf path = "embedded") ∧
    (∀ p, path = some p → pyTruthyStr path = true →
      sourceFlagOf path = "external" ∧
      (∀ e, (readCfg p).bind loadRegexConfig = .error e →
        getRegexRuntime path readCfg = embeddedRegexRuntime) ∧
      (∀ c, (readCfg p).bind loadRegexConfig = .ok c →
        getRegexRuntime path readCfg = c)) ∧
    (classifyRegex df dCol gCol vCol pCol path readCfg).2.source =
      sourceFlagOf path := by
  refine ⟨?_, ?_, rfl⟩
  · intro hf
    constructor
    · rw [getRegexRuntime, if_neg (by rw [hf]; simp)]
    · rw [sourceFlagOf, if_neg (by rw [hf]; simp)]
  · intro p hp ht
    subst hp
    refine ⟨by rw [sourceFlagOf, if_pos ht], ?_, ?_⟩
    · intro e he
      rw [getRegexRuntime, if_pos ht]
      simp only [Option.getD]
      rw [he]
    · intro c hc
      rw [getRegexRuntime, if_pos ht]
      simp only [Option.getD]
      rw [hc]

theorem c2_witness :
    (pyTruthyStr (some ("ruleset.yaml")) = true ∧
      (badReadCfg ("ruleset.yaml")).bind loadRegexConfig =
        .error ("yaml parse error")) ∧
    (sourceFlagOf (some ("ruleset.yaml")) = "external" ∧
      getRegexRuntime (some ("ruleset.yaml")) badReadCfg =
        embeddedRegexRuntime) ∧
    (classifyRegex dfOneNa ("delito") ("delito_grupo") ("violencia_class")
      ("robo_pasajero") (some ("ruleset.yaml")) badReadCfg).2.source =
      sourceFlagOf (some ("ruleset.yaml")) :=
  ⟨⟨by decide, by rfl⟩,
   ⟨((c2_fallback_and_source_flag (some ("ruleset.yaml")) badReadCfg dfOneNa
      ("delito") ("delito_grupo") ("violencia_class")
      ("robo_pasajero")).2.1 ("ruleset.yaml") rfl (by decide)).1,
    ((c2_fallback_and_source_flag (some ("ruleset.yaml")) badReadCfg dfOneNa
      ("delito") ("delito_grupo") ("violencia_class")
      ("robo_pasajero")).2.1 ("ruleset.yaml") rfl (by decide)).2.1
      ("yaml parse error") (by rfl)⟩,
   (c2_fallback_and_source_flag (some ("ruleset.yaml")) badReadCfg dfOneNa
      ("delito") ("delito_grupo") ("violencia_class")
      ("robo_pasajero")).2.2⟩

/-! ## C5: which steps tolerate absent columns -/

theorem cols_crossFill (df : DF) (colH colC : String) :
    (crossFillColonias df colH colC).1.cols = df.cols := by
  have h1 : (crossFillStepH colH colC df).cols = df.cols := by
    unfold crossFillStepH
    split <;> rfl
  have h2 : ∀ d : DF, (crossFillStepC colH colC d).cols = d.cols := by
    intro d
    unfold crossFillStepC
    split <;> rfl
  show (crossFillStepC colH colC (crossFillStepH colH colC df)).cols = df.cols
  rw [h2, h1]

theorem mem_cols_fillCompetencia (df : DF) (compCol alcCol x : String) :
    x ∈ (fillCompetencia df compCol alcCol).1.cols ↔
      x ∈ df.cols ∨ x = compCol := by
  have h2 : ∀ d : DF, (compStepMode compCol alcCol d).cols = d.cols := by
    intro d
    unfold compStepMode
    split <;> rfl
  show x ∈ (compStepFinal compCol (compStepMode compCol alcCol
    (compStepRule compCol (compStepEnsure compCol df)))).cols ↔ _
  show x ∈ (compStepMode compCol alcCol (compStepRule compCol
    (compStepEnsure compCol df))).cols ↔ _
  rw [h2]
  show x ∈ (ensureCol df compCol).cols ↔ _
  exact mem_cols_ensureCol df compCol x

theorem mem_cols_classifyCore (rx : RegexConfig) (flag : String) (df : DF)
    (d g v p x : String) :
    x ∈ (classifyCore rx flag df d g v p).1.cols ↔
      x ∈ df.cols ∨ x = d ∨ x = g ∨ x = ("delito_grupo_macro") ∨ x = v ∨
        x = p := by
  show x ∈ (setColCells (setColCells (setColCells (setColCells
    (ensureCol df d) g _) ("delito_grupo_macro") _) v _) p _).cols ↔ _
  rw [mem_cols_setColCells, mem_cols_setColCells, mem_cols_setColCells,
    mem_cols_setColCells, mem_cols_ensureCol]
  tauto

/-- C5 (amended): cross_fill_colonias (and likewise the jurisdiction and
classification steps, which create their missing inputs) tolerates absent
input columns as a reported no-op; but add_weekday_features,
add_quincena_window, fill_latlng_medians and the weather enricher raise a
missing-column error when their date, coordinate, locality or required
weather columns are absent, and such a missing-column error propagates
out of run_eda (so run_eda does not complete on a batch lacking the date
column). -/
theorem c5_missing_columns (df : DF) (colH colC dateCol nCol mCol outCol
    inL outL latCol lngCol cCol aCol oT oC : String) (w : Nat) (clima : DF)
    (cfg : EdaCfg) (readCfg : String → Except String YamlCfg)
    (readWeather : String → Except String DF) :
    (¬ (colH ∈ df.cols ∧ colC ∈ df.cols) →
      crossFillColonias df colH colC =
        (df, { filledHechoFromCatalogo := 0,
               filledCatalogoFromHecho := 0 })) ∧
    (dateCol ∉ df.cols → ∃ e,
      addWeekdayFeatures df dateCol nCol mCol = .error e) ∧
    (dateCol ∈ df.cols → ∃ out,
      addWeekdayFeatures df dateCol nCol mCol = .ok out) ∧
    (dateCol ∉ df.cols → ∃ e,
      addQuincenaWindow df dateCol w outCol inL outL = .error e) ∧
    (¬ (cCol ∈ df.cols ∧ latCol ∈ df.cols ∧ lngCol ∈ df.cols) → ∃ e,
      fillLatLngMedians df latCol lngCol cCol aCol = .error e) ∧
    (cCol ∈ df.cols ∧ latCol ∈ df.cols ∧ lngCol ∈ df.cols →
      aCol ∉ df.cols → ∃ e,
      fillLatLngMedians df latCol lngCol cCol aCol = .error e) ∧
    (¬ (("name") ∈ clima.cols ∧ ("datetime") ∈ clima.cols ∧
        ("temp") ∈ clima.cols ∧ ("conditions") ∈ clima.cols) → ∃ e,
      addWeatherCore df clima aCol dateCol oT oC = .error e) ∧
    (cfg.dateCol ∉ df.cols →
      cfg.dateCol ∉ [("competencia"), ("delito"), ("delito_grupo"),
        ("delito_grupo_macro"), ("violencia_class"), ("robo_pasajero")] →
      ∃ e, runEda df cfg readCfg readWeather = .error e) := by
  refine ⟨?_, ?_, ?_, ?_, ?_, ?_, ?_, ?_⟩
  · intro h
    simp [crossFillColonias, crossFillStepH, crossFillStepC,
      crossFillStats, h]
  · intro h
    exact ⟨_, by rw [addWeekdayFeatures, if_neg h]⟩
  · intro h
    exact ⟨_, by rw [addWeekdayFeatures, if_pos h]⟩
  · intro h
    exact ⟨_, by rw [addQuincenaWindow, if_neg h]⟩
  · intro h
    refine ⟨String.append ("KeyError: ") cCol, ?_⟩
    simp only [fillLatLngMedians, if_neg h]
  · intro h3 ha
    refine ⟨String.append ("KeyError: ") aCol, ?_⟩
    simp only [fillLatLngMedians, if_pos h3, if_neg ha]
  · intro h
    exact ⟨_, by rw [addWeatherCore, if_pos h]⟩
  · intro h1 h2
    have hc1 : ((crossFillColonias df ("colonia_hecho")
        ("colonia_catalogo")).1).cols = df.cols :=
      cols_crossFill df ("colonia_hecho") ("colonia_catalogo")
    have hnot : cfg.dateCol ∉ ((classifyRegex ((fillCompetencia
        ((crossFillColonias df ("colonia_hecho") ("colonia_catalogo")).1)
        ("competencia") cfg.alcaldiaCol).1) ("delito") ("delito_grupo")
        ("violencia_class") ("robo_pasajero") cfg.regexPath readCfg).1).cols := by
      intro hm
      have hm3 := (mem_cols_classifyCore _ _ _ _ _ _ _ _).mp hm
      rcases hm3 with hm4 | h | h | h | h | h
      · have hm5 := (mem_cols_fillCompetencia _ _ _ _).mp hm4
        rcases hm5 with hm6 | h
        · rw [hc1] at hm6
          exact h1 hm6
        · exact h2 (by rw [h]; simp)
      · exact h2 (by rw [h]; simp)
      · exact h2 (by rw [h]; simp)
      · exact h2 (by rw [h]; simp)
      · exact h2 (by rw [h]; simp)
      · exact h2 (by rw [h]; simp)
    refine ⟨String.append ("KeyError: ") cfg.dateCol, ?_⟩
    have hwk : addWeekdayFeatures ((classifyRegex ((fillCompetencia
        ((crossFillColonias df ("colonia_hecho") ("colonia_catalogo")).1)
        ("competencia") cfg.alcaldiaCol).1) ("delito") ("delito_grupo")
        ("violencia_class") ("robo_pasajero") cfg.regexPath readCfg).1)
        cfg.dateCol ("weekday") ("weekday_num") =
        .error (String.append ("KeyError: ") cfg.dateCol) := by
      rw [addWeekdayFeatures, if_neg hnot]
    simp only [runEda]
    rw [hwk]
    rfl

/-- C5 counterexample: run_eda raises (propagates an error) on a batch
whose date column is absent, instead of skipping the calendar step. -/
theorem c5_counterexample :
    exOk (runEda emptyDF cfgDefault badReadCfg noWeather) = false := by
  decide

theorem c5_witness :
    (cfgDefault.dateCol ∉ dfOneNa.cols ∧
      cfgDefault.dateCol ∉ [("competencia"), ("delito"), ("delito_grupo"),
        ("delito_grupo_macro"), ("violencia_class"), ("robo_pasajero")] ∧
      ("fecha_hecho") ∉ dfOneNa.cols ∧
      ¬ (("colonia_hecho") ∈ dfOneNa.cols ∧
        ("colonia_catalogo") ∈ dfOneNa.cols)) ∧
    crossFillColonias dfOneNa ("colonia_hecho") ("colonia_catalogo") =
      (dfOneNa, { filledHechoFromCatalogo := 0,
                  filledCatalogoFromHecho := 0 }) ∧
    (∃ e, addWeekdayFeatures dfOneNa ("fecha_hecho") ("weekday")
      ("weekday_num") = .error e) ∧
    (∃ e, runEda dfOneNa cfgDefault badReadCfg noWeather = .error e) :=
  ⟨⟨by decide, by decide, by decide, by decide⟩,
   (c5_missing_columns dfOneNa ("colonia_hecho") ("colonia_catalogo")
     ("fecha_hecho") ("weekday") ("weekday_num") ("quincena_window")
     ("WINDOW") ("NO_WINDOW") ("latitud") ("longitud") ("colonia_hecho")
     ("alcaldia_hecho") ("clima_temp") ("clima_conditions") 2 emptyDF
     cfgDefault badReadCfg noWeather).1 (by decide),
   (c5_missing_columns dfOneNa ("colonia_hecho") ("colonia_catalogo")
     ("fecha_hecho") ("weekday") ("weekday_num") ("quincena_window")
     ("WINDOW") ("NO_WINDOW") ("latitud") ("longitud") ("colonia_hecho")
     ("alcaldia_hecho") ("clima_temp") ("clima_conditions") 2 emptyDF
     cfgDefault badReadCfg noWeather).2.1 (by decide),
   (c5_missing_columns dfOneNa ("colonia_hecho") ("colonia_catalogo")
     ("fecha_hecho") ("weekday") ("weekday_num") ("quincena_window")
     ("WINDOW") ("NO_WINDOW") ("latitud") ("longitud") ("colonia_hecho")
     ("alcaldia_hecho") ("clima_temp") ("clima_conditions") 2 emptyDF
     cfgDefault badReadCfg noWeather).2.2.2.2.2.2.2 (by decide) (by decide)⟩

end CrimeEDA
